import Mathlib

/-!
Shallow embedding of the water-pump automation core
(src/config.py, src/pumps.py, src/sensors.py, src/controller.py).

Volumes and percentage levels are modelled as exact rationals (the Python
code uses floats; every claim-relevant computation is plain real-valued
arithmetic).  Randomness is injected explicitly: the city-supply flow
variation `random.uniform(0.8, 1.2)` is a parameter of the simulation step,
and the pressure-oracle outcomes of `check_pump_pressure` are a list of
booleans consumed one per call (an exhausted list means "no fault", the
overwhelmingly likely outcome of the 1-in-1000 random fault).  Python
strings formatted with `{x:.1f}` are rendered with `fmt1`; their exact text
is not load-bearing for any claim.  Calls to the persistence layer
(`log_pump_action` in database.py) are modelled as appending a `LogEntry`;
the levels/meter snapshot arguments of the log call are side data and are
dropped.
-/

/-! ### config.py -/

-- TANK CAPACITIES in Liters
def MAIN_LINE_TANK_CAPACITY : ℚ := 1000
def UNDERGROUND_TANK_CAPACITY : ℚ := 5000
def OVERHEAD_TANK_CAPACITY : ℚ := 2000

-- PUMPS OPERATIONAL THRESHOLDS (in percentages)
def P1_START_THRESHOLD_UNDERGROUND : ℚ := 10
def P1_STOP_THRESHOLD_MAIN_LINE : ℚ := 15
def P1_REQ_MAIN_LINE_LEVEL : ℚ := 15
-- (config.py spells this constant `P1_MANUAL_BYPASS_MIN_UNDERGOUND`;
-- controller.py imports the intended spelling.  It is unused in the logic.)
def P1_MANUAL_BYPASS_MIN_UNDERGROUND : ℚ := 5
def P1_MANUAL_BYPASS_MIN_MAIN_LINE : ℚ := 5

def P2_START_THRESHOLD_MAIN_LINE : ℚ := 5
def P2_START_THRESHOLD_UNDERGROUND : ℚ := 5
def P2_START_THRESHOLD_OVERHEAD : ℚ := 5
def P2_STOP_THRESHOLD_UNDERGROUND : ℚ := 30

def P3_START_THRESHOLD_OVERHEAD : ℚ := 10
def P3_REQ_UNDERGROUND_LEVEL : ℚ := 10
def P3_SIGNAL_PUMP_THRESHOLD_UNDERGROUND : ℚ := 10
def P3_SIGNAL_TARGET_UNDERGROUND : ℚ := 30
def P3_WARN_THRESHOLD_OVERHEAD : ℚ := 5
def P3_WARN_THRESHOLD_UNDERGROUND_LOW : ℚ := 5
def P3_WARN_THRESHOLD_UNDERGROUND_HIGH : ℚ := 10
def P3_STOP_THRESHOLD_UNDERGROUND : ℚ := 5

-- Pump & Water Flow Rates (liters per second)
def P1_FLOW_RATE : ℚ := 10
def P2_FLOW_RATE : ℚ := 8
def P3_FLOW_RATE : ℚ := 12
def HOUSEHOLD_CONSUMPTION_RATE : ℚ := 1

-- CITY WATER SUPPLY SCHEDULE
def CITY_SUPPLY_START_HOUR : ℕ := 10
def CITY_SUPPLY_END_HOUR : ℕ := 15
def CITY_SUPPLY_FLOW_RATE : ℚ := 15

-- PEAK ELECTRICITY HOURS.  Times of day are modelled as seconds since
-- midnight.  (config.py writes `PEAH_HOUR_END`, a typo; controller.py
-- imports the intended name `PEAK_HOUR_END` with the value time(22, 30).)
def PEAK_HOUR_START : ℕ := 18 * 3600 + 30 * 60
def PEAK_HOUR_END : ℕ := 22 * 3600 + 30 * 60

-- ELECTRICITY METER SCHEDULE: GROUND_FLOOR_METER_DAYS = range(1, 16)
def GROUND_FLOOR_METER_DAYS (day : ℕ) : Bool := decide (1 ≤ day ∧ day < 16)

def SIMULATION_INTERVAL_SECONDS : ℚ := 1

/-- Stand-in for Python string formatting of a float.  No claim depends on
the rendered text of a formatted level value. -/
def fmt1 (q : ℚ) : String := toString q

/-- A `datetime.datetime` value, reduced to the two components the core
reads: seconds since midnight (`now.time()`) and day of month (`now.day`). -/
structure Datetime where
  sod : ℕ
  day : ℕ
deriving DecidableEq, Repr

def Datetime.hour (t : Datetime) : ℕ := t.sod / 3600

/-! ### pumps.py -/

inductive PumpState where
  | OFF
  | ON
  | ERROR
  | MANUAL_ON
deriving DecidableEq, Repr

structure Pump where
  pump_id : String
  state : PumpState
  error_message : Option String
deriving DecidableEq, Repr

def Pump.init (pump_id : String) : Pump :=
  { pump_id := pump_id, state := PumpState.OFF, error_message := none }

/-- `Pump.set_state` from pumps.py: replace the state when it changes
(storing the reason only for `ERROR`); when re-asserting `ERROR` with a
different reason, refresh the stored reason. -/
def Pump.set_state (p : Pump) (new_state : PumpState) (reason : String) : Pump :=
  if p.state ≠ new_state then
    { p with state := new_state,
             error_message := if new_state = PumpState.ERROR then some reason else none }
  else if new_state = PumpState.ERROR ∧ p.error_message ≠ some reason then
    { p with error_message := some reason }
  else p

def Pump.is_on (p : Pump) : Bool :=
  decide (p.state = PumpState.ON ∨ p.state = PumpState.MANUAL_ON)

/-! ### sensors.py -/

structure Tank where
  name : String
  capacity : ℚ
  current_volume : ℚ
  level_pct : ℚ
deriving DecidableEq, Repr

/-- `Tank.__init__`: volume is `(initial_level_pct / 100) * capacity`. -/
def Tank.init (name : String) (capacity : ℚ) (initial_level_pct : ℚ) : Tank :=
  { name := name, capacity := capacity,
    current_volume := initial_level_pct / 100 * capacity,
    level_pct := initial_level_pct }

/-- `Tank.get_level_percentage`: stores the raw percentage in `level_pct`
and returns it clamped to `[0, 100]`. -/
def Tank.get_level_percentage (t : Tank) : Tank × ℚ :=
  let pct := t.current_volume / t.capacity * 100
  ({ t with level_pct := pct }, max 0 (min 100 pct))

/-- `Tank.add_water`: add up to capacity, return the overflow. -/
def Tank.add_water (t : Tank) (volume : ℚ) : Tank × ℚ :=
  let potential_volume := t.current_volume + volume
  let overflow := max 0 (potential_volume - t.capacity)
  let t1 : Tank := { t with current_volume := min t.capacity potential_volume }
  ((t1.get_level_percentage).1, overflow)

/-- `Tank.remove_water`: remove at most the current volume, return the
amount actually removed. -/
def Tank.remove_water (t : Tank) (volume : ℚ) : Tank × ℚ :=
  let volume_to_remove := min volume t.current_volume
  let t1 : Tank := { t with current_volume := t.current_volume - volume_to_remove }
  ((t1.get_level_percentage).1, volume_to_remove)

inductive PumpId where
  | P1
  | P2
  | P3
deriving DecidableEq, Repr

def PumpId.name : PumpId → String
  | .P1 => "P1"
  | .P2 => "P2"
  | .P3 => "P3"

/-- The module-level `tanks` dict of sensors.py (fixed keys main_line,
underground, overhead). -/
structure Tanks where
  main_line : Tank
  underground : Tank
  overhead : Tank
deriving DecidableEq, Repr

/-- Module initialization of `tanks` in sensors.py. -/
def tanks_start : Tanks :=
  { main_line := Tank.init "Main Line Tank" MAIN_LINE_TANK_CAPACITY 20,
    underground := Tank.init "Underground Tank" UNDERGROUND_TANK_CAPACITY 30,
    overhead := Tank.init "Overhead Tank" OVERHEAD_TANK_CAPACITY 50 }

/-- The dict returned by `get_current_water_levels` (fixed keys). -/
structure Levels where
  main_line : ℚ
  underground : ℚ
  overhead : ℚ
deriving DecidableEq, Repr

/-- `get_current_water_levels`: per-tank clamped percentages (the calls
also rewrite each tank's `level_pct` field, which is threaded through). -/
def get_current_water_levels (tk : Tanks) : Tanks × Levels :=
  let r1 := tk.main_line.get_level_percentage
  let r2 := tk.underground.get_level_percentage
  let r3 := tk.overhead.get_level_percentage
  ({ main_line := r1.1, underground := r2.1, overhead := r3.1 },
   { main_line := r1.2, underground := r2.2, overhead := r3.2 })

/-- Step 1 of `update_tank_levels`: scheduled city supply into the
main-line tank, with the injected flow variation factor. -/
def city_supply_step (flow_variation : ℚ) (hour : ℕ) (tk : Tanks) : Tanks :=
  if CITY_SUPPLY_START_HOUR ≤ hour ∧ hour < CITY_SUPPLY_END_HOUR then
    let inflow := CITY_SUPPLY_FLOW_RATE * flow_variation * SIMULATION_INTERVAL_SECONDS
    { tk with main_line := (tk.main_line.add_water inflow).1 }
  else tk

/-- Step 2 of `update_tank_levels`: P1 moves main-line water underground
(only the actually-removed amount is transferred). -/
def p1_step (pump_states : PumpId → Bool) (tk : Tanks) : Tanks :=
  if pump_states .P1 then
    let r := tk.main_line.remove_water (P1_FLOW_RATE * SIMULATION_INTERVAL_SECONDS)
    { tk with main_line := r.1, underground := (tk.underground.add_water r.2).1 }
  else tk

/-- Step 3 of `update_tank_levels`: P2 adds well water underground
unconditionally. -/
def p2_step (pump_states : PumpId → Bool) (tk : Tanks) : Tanks :=
  if pump_states .P2 then
    { tk with underground := (tk.underground.add_water (P2_FLOW_RATE * SIMULATION_INTERVAL_SECONDS)).1 }
  else tk

/-- Step 4 of `update_tank_levels`: P3 moves underground water overhead. -/
def p3_step (pump_states : PumpId → Bool) (tk : Tanks) : Tanks :=
  if pump_states .P3 then
    let r := tk.underground.remove_water (P3_FLOW_RATE * SIMULATION_INTERVAL_SECONDS)
    { tk with underground := r.1, overhead := (tk.overhead.add_water r.2).1 }
  else tk

/-- Step 5 of `update_tank_levels`: household consumption from overhead. -/
def household_step (tk : Tanks) : Tanks :=
  { tk with overhead := (tk.overhead.remove_water (HOUSEHOLD_CONSUMPTION_RATE * SIMULATION_INTERVAL_SECONDS)).1 }

/-- `update_tank_levels` from sensors.py, the five steps in source order. -/
def update_tank_levels (flow_variation : ℚ) (pump_states : PumpId → Bool) (hour : ℕ) (tk : Tanks) : Tanks :=
  household_step (p3_step pump_states (p2_step pump_states (p1_step pump_states (city_supply_step flow_variation hour tk))))

/-- `check_pump_pressure`: the random fault draw is injected as a list of
outcomes consumed one per call; an exhausted list reads as pressure OK. -/
def check_pump_pressure (pump_id : PumpId) (o : List Bool) : Bool × List Bool :=
  match pump_id, o with
  | _, [] => (true, [])
  | _, b :: rest => (b, rest)

/-- `reset_simulation` from sensors.py.  `initial_levels` is a Python dict
(modelled as an association list); Python truthiness makes `None` and the
empty dict fall back to the defaults, while a non-empty dict is indexed
directly and a missing key raises `KeyError` (modelled as `Except.error`,
first missing key in evaluation order). -/
def reset_simulation (initial : Option (List (String × ℚ))) : Except String Tanks :=
  let default_levels : List (String × ℚ) :=
    [("main_line", 20), ("underground", 30), ("overhead", 50)]
  let levels_to_set : List (String × ℚ) :=
    match initial with
    | none => default_levels
    | some m => if m.isEmpty then default_levels else m
  match levels_to_set.lookup "main_line" with
  | none => Except.error "KeyError: main_line"
  | some a =>
    match levels_to_set.lookup "underground" with
    | none => Except.error "KeyError: underground"
    | some b =>
      match levels_to_set.lookup "overhead" with
      | none => Except.error "KeyError: overhead"
      | some c =>
        Except.ok
          { main_line := Tank.init "Main Line Tank" MAIN_LINE_TANK_CAPACITY a,
            underground := Tank.init "Underground Tank" UNDERGROUND_TANK_CAPACITY b,
            overhead := Tank.init "Overhead Tank" OVERHEAD_TANK_CAPACITY c }

/-! ### controller.py -/

/-- The mutable attributes of `AutomationController`.  `manual_override`
is a dict with the fixed keys "P1", "P2"; `pumps` a dict with the fixed
keys "P1", "P2", "P3" (insertion order P1, P2, P3). -/
structure AutomationController where
  p1 : Pump
  p2 : Pump
  p3 : Pump
  last_levels : Levels
  active_meter : String
  is_peak_hours : Bool
  warnings : List String
  system_message : Option String
  mo_P1 : Bool
  mo_P2 : Bool
deriving DecidableEq, Repr

/-- Dict read `self.pumps[pump_id]`. -/
def AutomationController.getPump (c : AutomationController) : PumpId → Pump
  | .P1 => c.p1
  | .P2 => c.p2
  | .P3 => c.p3

/-- Replacing the state of the `Pump` object held under `pump_id`
(Python mutates the shared object in place). -/
def AutomationController.setPump (c : AutomationController) (pid : PumpId) (p : Pump) : AutomationController :=
  match pid with
  | .P1 => { c with p1 := p }
  | .P2 => { c with p2 := p }
  | .P3 => { c with p3 := p }

/-- Dict read `self.manual_override[pump_id]` (keys P1, P2 only; P3 reads
never occur in the source). -/
def AutomationController.getMO (c : AutomationController) : PumpId → Bool
  | .P1 => c.mo_P1
  | .P2 => c.mo_P2
  | .P3 => false

/-- Dict write `self.manual_override[pump_id] = enable`. -/
def AutomationController.setMO (c : AutomationController) (pid : PumpId) (enable : Bool) : AutomationController :=
  match pid with
  | .P1 => { c with mo_P1 := enable }
  | .P2 => { c with mo_P2 := enable }
  | .P3 => c

/-- `AutomationController.__init__`. -/
def AutomationController.init : AutomationController :=
  { p1 := Pump.init "P1", p2 := Pump.init "P2", p3 := Pump.init "P3",
    last_levels := { main_line := 0, underground := 0, overhead := 0 },
    active_meter := "Ground", is_peak_hours := false,
    warnings := [], system_message := none,
    mo_P1 := false, mo_P2 := false }

/-- `get_pump_states`: which pumps are currently running. -/
def get_pump_states (c : AutomationController) : PumpId → Bool :=
  fun pid => (c.getPump pid).is_on

/-- One record handed to `log_pump_action` (database.py); the levels and
active-meter snapshot arguments are dropped. -/
structure LogEntry where
  pump_id : PumpId
  action : String
  reason : String
deriving DecidableEq, Repr

/-- The whole mutable world one cycle acts on: the controller object, the
sensors module's tank state, the injected pressure-oracle outcomes still
to be consumed, and the persisted action log. -/
structure SystemState where
  ctrl : AutomationController
  tanks : Tanks
  pressure : List Bool
  log : List LogEntry
deriving DecidableEq, Repr

/-- `_check_time_constraints` from controller.py. -/
def check_time_constraints (current_time : Datetime) (c : AutomationController) : AutomationController :=
  let is_peak := decide (PEAK_HOUR_START ≤ current_time.sod ∧ current_time.sod ≤ PEAK_HOUR_END)
  let meter := if GROUND_FLOOR_METER_DAYS current_time.day then "Ground" else "First Floor"
  let c := { c with is_peak_hours := is_peak, active_meter := meter }
  if is_peak then
    { c with system_message := some "Peak hours active (18:30 - 22:30). Automatic pumping paused." }
  else
    { c with system_message := some ("Active Meter: " ++ meter) }

/-- `_log_action` from controller.py. -/
def log_action (pump_id : PumpId) (action : String) (reason : String) (s : SystemState) : SystemState :=
  { s with log := s.log ++ [{ pump_id := pump_id, action := action, reason := reason }] }

/-- `_handle_pump_stop` from controller.py (the `action_type` parameter
defaults to "STOP" in the source and every call site uses the default). -/
def handle_pump_stop (pump_id : PumpId) (reason : String) (action_type : String) (s : SystemState) : SystemState :=
  let pump := s.ctrl.getPump pump_id
  if pump.is_on then
    let s := { s with ctrl := s.ctrl.setPump pump_id (pump.set_state PumpState.OFF reason) }
    log_action pump_id action_type reason s
  else s

/-- `_handle_pump_start` from controller.py: no-op when already running,
else consult the pressure oracle; success starts (ON / MANUAL_ON),
failure transitions to ERROR with reason "Zero Pressure Detected". -/
def handle_pump_start (pump_id : PumpId) (reason : String) (manual : Bool) (s : SystemState) : SystemState × Bool :=
  let pump := s.ctrl.getPump pump_id
  if ¬ pump.is_on then
    let r := check_pump_pressure pump_id s.pressure
    let s := { s with pressure := r.2 }
    if r.1 then
      let new_state := if manual then PumpState.MANUAL_ON else PumpState.ON
      let s := { s with ctrl := s.ctrl.setPump pump_id (pump.set_state new_state reason) }
      let action_type := if manual then "MANUAL_START" else "START"
      (log_action pump_id action_type reason s, true)
    else
      let s := { s with ctrl := s.ctrl.setPump pump_id (pump.set_state PumpState.ERROR "Zero Pressure Detected") }
      (log_action pump_id "ERROR" "Zero Pressure Detected" s, false)
  else (s, true)

/-- One iteration of the safety-sweep for-loop of `run_control_cycle`:
stop automatic pumps when peak hours are active, otherwise fault a
running pump whose pressure check fails. -/
def sweep_pump (pump_id : PumpId) (s : SystemState) : SystemState :=
  let pump := s.ctrl.getPump pump_id
  if pump.is_on then
    if s.ctrl.is_peak_hours ∧ pump.state ≠ PumpState.MANUAL_ON then
      handle_pump_stop pump_id "Peak hours started" "STOP" s
    else
      let r := check_pump_pressure pump_id s.pressure
      let s := { s with pressure := r.2 }
      if ¬ r.1 then
        let s := { s with ctrl := s.ctrl.setPump pump_id (pump.set_state PumpState.ERROR "Zero Pressure Detected during operation") }
        log_action pump_id "ERROR" "Zero Pressure Detected during operation" s
      else s
  else s

/-- The safety-sweep loop, iterating the pumps dict in insertion order
P1, P2, P3.  After the loop Python's `pump_id` variable remains bound to
the last key, "P3". -/
def safety_sweep (s : SystemState) : SystemState :=
  sweep_pump .P3 (sweep_pump .P2 (sweep_pump .P1 s))

/-- The "P1 Manual" block of `run_control_cycle`.  `leftover_pump_id`
models Python's `pump_id` variable, still bound to the last key of
`self.pumps` ("P3") after the safety-sweep for-loop: the source's
bypass-failure branch stops that leftover pump, not P1. -/
def manual_override_P1 (ml_level : ℚ) (leftover_pump_id : PumpId) (s : SystemState) : SystemState :=
  if s.ctrl.mo_P1 then
    if s.ctrl.is_peak_hours then
      { s with ctrl := { s.ctrl with warnings := s.ctrl.warnings ++ ["P1 Manual Start ignored during peak hours."] } }
    else if ml_level < P1_MANUAL_BYPASS_MIN_MAIN_LINE then
      let s := { s with ctrl := { s.ctrl with warnings := s.ctrl.warnings ++ ["P1 Manual Start failed: Main Line Tank < 5.0%"] } }
      handle_pump_stop leftover_pump_id "Manual start condition not met (Main Line < 5.0%)" "STOP" s
    else if ¬ (s.ctrl.getPump .P1).is_on then
      (handle_pump_start .P1 "Manual Override Activated" true s).1
    else s
  else if (s.ctrl.getPump .P1).state = PumpState.MANUAL_ON then
    let r := check_pump_pressure .P1 s.pressure
    let s := { s with pressure := r.2 }
    if ¬ r.1 then
      let s := { s with ctrl := s.ctrl.setPump .P1 ((s.ctrl.getPump .P1).set_state PumpState.ERROR "Zero Pressure Detected during manual operation") }
      log_action .P1 "ERROR" "Zero Pressure Detected during manual operation" s
    else s
  else s

/-- The "P2 Manual" block of `run_control_cycle` (no level precondition). -/
def manual_override_P2 (s : SystemState) : SystemState :=
  if s.ctrl.mo_P2 then
    if s.ctrl.is_peak_hours then
      { s with ctrl := { s.ctrl with warnings := s.ctrl.warnings ++ ["P2 Manual Start ignored during peak hours."] } }
    else if ¬ (s.ctrl.getPump .P2).is_on then
      (handle_pump_start .P2 "Manual Override Activated" true s).1
    else s
  else if (s.ctrl.getPump .P2).state = PumpState.MANUAL_ON then
    let r := check_pump_pressure .P2 s.pressure
    let s := { s with pressure := r.2 }
    if ¬ r.1 then
      let s := { s with ctrl := s.ctrl.setPump .P2 ((s.ctrl.getPump .P2).set_state PumpState.ERROR "Zero Pressure Detected during manual operation") }
      log_action .P2 "ERROR" "Zero Pressure Detected during manual operation" s
    else s
  else s

/-- The "Pump P3 Logic" block of `run_control_cycle` (already guarded by
"not peak hours").  The warnings sub-block re-reads `pump3.is_on()` on the
live object, i.e. after any stop/start performed just above. -/
def auto_P3 (ug_level oh_level : ℚ) (s : SystemState) : SystemState :=
  let pump3 := s.ctrl.getPump .P3
  if pump3.state ≠ PumpState.ERROR then
    let s :=
      if pump3.is_on ∧ oh_level ≥ P3_START_THRESHOLD_OVERHEAD + 5 then
        handle_pump_stop .P3 ("Overhead Tank reached " ++ fmt1 oh_level ++ "%") "STOP" s
      else if pump3.is_on ∧ ug_level < P3_STOP_THRESHOLD_UNDERGROUND then
        let s := handle_pump_stop .P3 "Underground Tank fell below 5.0%" "STOP" s
        { s with ctrl := { s.ctrl with system_message := some ("P3 stopped. Underground low (" ++ fmt1 ug_level ++ "%). Requesting fill.") } }
      else if (¬ pump3.is_on) ∧ oh_level < P3_START_THRESHOLD_OVERHEAD then
        if ug_level ≥ P3_REQ_UNDERGROUND_LEVEL then
          (handle_pump_start .P3 "Overhead Tank < 10.0%" false s).1
        else
          { s with ctrl := { s.ctrl with system_message := some ("P3 needs to start (Overhead < 10.0%) but Underground level (" ++ fmt1 ug_level ++ "%) is below required 10.0%.") } }
      else s
    let pump3 := s.ctrl.getPump .P3
    if pump3.is_on then
      let s :=
        if oh_level < P3_WARN_THRESHOLD_OVERHEAD then
          { s with ctrl := { s.ctrl with warnings := s.ctrl.warnings ++ ["Warning: P3 running with Overhead Tank level low (" ++ fmt1 oh_level ++ "% < 5.0%)"] } }
        else s
      if P3_WARN_THRESHOLD_UNDERGROUND_LOW ≤ ug_level ∧ ug_level < P3_WARN_THRESHOLD_UNDERGROUND_HIGH then
        { s with ctrl := { s.ctrl with warnings := s.ctrl.warnings ++ ["Warning: P3 running with Underground Tank level low (" ++ fmt1 ug_level ++ "%)"] } }
      else s
    else s
  else s

/-- The "Pump P1 Logic" block of `run_control_cycle` (guard: not ERROR and
not MANUAL_ON; the start reason formats `max(10.0, 10.0)`). -/
def auto_P1 (ml_level ug_level : ℚ) (s : SystemState) : SystemState :=
  let pump1 := s.ctrl.getPump .P1
  if pump1.state ≠ PumpState.ERROR ∧ pump1.state ≠ PumpState.MANUAL_ON then
    if pump1.is_on then
      if ml_level < P1_STOP_THRESHOLD_MAIN_LINE then
        handle_pump_stop .P1 "Main Line Tank < 15.0%" "STOP" s
      else if ug_level ≥ P3_SIGNAL_TARGET_UNDERGROUND + 5 then
        handle_pump_stop .P1 ("Underground Tank reached target level (" ++ fmt1 ug_level ++ "%)") "STOP" s
      else s
    else
      -- needs_fill = ug < P1_START_THRESHOLD_UNDERGROUND or ug < P3_REQ_UNDERGROUND_LEVEL
      if (ug_level < P1_START_THRESHOLD_UNDERGROUND ∨ ug_level < P3_REQ_UNDERGROUND_LEVEL) ∧ ml_level ≥ P1_REQ_MAIN_LINE_LEVEL then
        (handle_pump_start .P1 "Underground Tank < 10.0%" false s).1
      else if (ug_level < P1_START_THRESHOLD_UNDERGROUND ∨ ug_level < P3_REQ_UNDERGROUND_LEVEL) ∧ ml_level < P1_REQ_MAIN_LINE_LEVEL then
        { s with ctrl := { s.ctrl with system_message := some ("P1 cannot start: Underground needs fill (" ++ fmt1 ug_level ++ "%) but Main Line level (" ++ fmt1 ml_level ++ "%) is below required 15.0%.") } }
      else s
  else s

/-- The "Pump P2 Logic" block of `run_control_cycle` (guard: not ERROR and
not MANUAL_ON). -/
def auto_P2 (ml_level ug_level oh_level : ℚ) (s : SystemState) : SystemState :=
  let pump2 := s.ctrl.getPump .P2
  if pump2.state ≠ PumpState.ERROR ∧ pump2.state ≠ PumpState.MANUAL_ON then
    if pump2.is_on ∧ ug_level ≥ P2_STOP_THRESHOLD_UNDERGROUND then
      handle_pump_stop .P2 "Underground Tank reached 30.0%" "STOP" s
    else if ¬ pump2.is_on then
      -- critical_levels
      if ml_level < P2_START_THRESHOLD_MAIN_LINE ∧ ug_level < P2_START_THRESHOLD_UNDERGROUND ∧ oh_level < P2_START_THRESHOLD_OVERHEAD then
        (handle_pump_start .P2 "Critical low levels detected in all tanks" false s).1
      -- p3_needs_water_p1_cant
      else if ug_level < P3_REQ_UNDERGROUND_LEVEL ∧ ml_level < P1_REQ_MAIN_LINE_LEVEL then
        (handle_pump_start .P2 ("Backup needed: P3 requires water and P1 cannot run (Main Line " ++ fmt1 ml_level ++ "%)") false s).1
      else s
    else s
  else s

/-- The opening of `run_control_cycle`: clear the per-cycle messages,
recompute the time context, read the levels, run one simulation step using
the pump states from before this cycle's decisions, and re-read the levels
(the ml/ug/oh locals bound at the first read are overwritten by the second
read, whose values are also stored in `last_levels`). -/
def prepare_cycle (current_time : Datetime) (flow_variation : ℚ) (s : SystemState) : SystemState :=
  let s := { s with ctrl := { s.ctrl with warnings := [], system_message := none } }
  let s := { s with ctrl := check_time_constraints current_time s.ctrl }
  let r0 := get_current_water_levels s.tanks
  let s := { s with tanks := r0.1, ctrl := { s.ctrl with last_levels := r0.2 } }
  let s := { s with tanks := update_tank_levels flow_variation (get_pump_states s.ctrl) current_time.hour s.tanks }
  let r1 := get_current_water_levels s.tanks
  { s with tanks := r1.1, ctrl := { s.ctrl with last_levels := r1.2 } }

/-- The decision part of `run_control_cycle`: safety sweep, manual
overrides (Python's `pump_id` loop variable is still bound to "P3" here),
then the automatic pump logic outside peak hours.  `ml_level`, `ug_level`
and `oh_level` are the levels re-read after the simulation step. -/
def decision_logic (ml_level ug_level oh_level : ℚ) (s : SystemState) : SystemState :=
  let s := safety_sweep s
  let s := manual_override_P1 ml_level .P3 s
  let s := manual_override_P2 s
  if s.ctrl.is_peak_hours then s
  else auto_P2 ml_level ug_level oh_level (auto_P1 ml_level ug_level (auto_P3 ug_level oh_level s))

/-- `run_control_cycle` from controller.py, with the cycle's randomness
(`random.uniform` flow variation and the pressure-oracle draws carried in
the state) injected. -/
def run_control_cycle (current_time : Datetime) (flow_variation : ℚ) (s : SystemState) : SystemState :=
  let s1 := prepare_cycle current_time flow_variation s
  decision_logic s1.ctrl.last_levels.main_line s1.ctrl.last_levels.underground s1.ctrl.last_levels.overhead s1

/-- `request_manual_override` from controller.py. -/
def request_manual_override (pump_id : PumpId) (enable : Bool) (s : SystemState) : SystemState :=
  if pump_id = .P1 ∨ pump_id = .P2 then
    if enable ∧ (s.ctrl.getPump pump_id).state = PumpState.ERROR then
      { s with ctrl := { s.ctrl with warnings := s.ctrl.warnings ++ ["Cannot manually start " ++ pump_id.name ++ " while in ERROR state."] } }
    else
      let s := { s with ctrl := s.ctrl.setMO pump_id enable }
      if ¬ enable then
        let pump := s.ctrl.getPump pump_id
        if pump.state = PumpState.MANUAL_ON then
          let s := { s with ctrl := s.ctrl.setPump pump_id (pump.set_state PumpState.OFF "Manual Override Disabled") }
          log_action pump_id "MANUAL_STOP" "Manual Override Disabled" s
        else s
      else s
  else s

/-- `reset_pump_error` from controller.py (every `PumpId` is a key of
`self.pumps`, so the membership guard always passes). -/
def reset_pump_error (pump_id : PumpId) (s : SystemState) : SystemState :=
  let pump := s.ctrl.getPump pump_id
  if pump.state = PumpState.ERROR then
    let s := { s with ctrl := s.ctrl.setPump pump_id (pump.set_state PumpState.OFF "Error Reset by User") }
    log_action pump_id "INFO" "Error Reset by User" s
  else s

/-! ### Basic lemmas about the embedded operations -/

@[simp]
theorem Pump.set_state_state (p : Pump) (ns : PumpState) (r : String) :
    (p.set_state ns r).state = ns := by
  unfold Pump.set_state
  split_ifs <;> simp_all

@[simp]
theorem getPump_setPump_self (c : AutomationController) (pid : PumpId) (p : Pump) :
    (c.setPump pid p).getPump pid = p := by
  cases pid <;> rfl

theorem getPump_setPump_ne (c : AutomationController) (pid q : PumpId) (p : Pump)
    (h : q ≠ pid) : (c.setPump pid p).getPump q = c.getPump q := by
  cases pid <;> cases q <;> simp_all [AutomationController.setPump, AutomationController.getPump]

theorem Pump.not_is_on_iff (p : Pump) :
    p.is_on = false ↔ (p.state ≠ PumpState.ON ∧ p.state ≠ PumpState.MANUAL_ON) := by
  simp [Pump.is_on]

theorem Pump.is_on_iff (p : Pump) :
    p.is_on = true ↔ (p.state = PumpState.ON ∨ p.state = PumpState.MANUAL_ON) := by
  simp [Pump.is_on]

/-! ### Tank invariants (claims C4, C5) -/

/-- The tank well-formedness invariant of the spec data model. -/
def Tank.Inv (t : Tank) : Prop :=
  0 < t.capacity ∧ 0 ≤ t.current_volume ∧ t.current_volume ≤ t.capacity

instance (t : Tank) : Decidable t.Inv := by
  unfold Tank.Inv
  infer_instance

def Tanks.Inv (tk : Tanks) : Prop :=
  tk.main_line.Inv ∧ tk.underground.Inv ∧ tk.overhead.Inv

instance (tk : Tanks) : Decidable tk.Inv := by
  unfold Tanks.Inv
  infer_instance

theorem Tank.add_water_Inv (t : Tank) (v : ℚ) (ht : t.Inv) (hv : 0 ≤ v) :
    ((t.add_water v).1).Inv := by
  obtain ⟨h1, h2, h3⟩ := ht
  exact ⟨h1, le_min h1.le (add_nonneg h2 hv), min_le_left _ _⟩

theorem Tank.remove_water_Inv (t : Tank) (v : ℚ) (ht : t.Inv) (hv : 0 ≤ v) :
    ((t.remove_water v).1).Inv := by
  obtain ⟨h1, h2, h3⟩ := ht
  exact ⟨h1, sub_nonneg.mpr (min_le_right _ _), le_trans (sub_le_self _ (le_min hv h2)) h3⟩

theorem Tank.remove_water_snd_nonneg (t : Tank) (v : ℚ) (ht : t.Inv) (hv : 0 ≤ v) :
    0 ≤ (t.remove_water v).2 :=
  le_min hv ht.2.1

theorem Tank.get_level_percentage_bounds (t : Tank) :
    0 ≤ (t.get_level_percentage).2 ∧ (t.get_level_percentage).2 ≤ 100 :=
  ⟨le_max_left _ _, max_le (by norm_num) (min_le_left _ _)⟩

theorem city_supply_step_Inv (r : ℚ) (hour : ℕ) (tk : Tanks) (h : tk.Inv) (hr : 0 ≤ r) :
    (city_supply_step r hour tk).Inv := by
  unfold city_supply_step
  split_ifs
  · exact ⟨Tank.add_water_Inv _ _ h.1
      (mul_nonneg (mul_nonneg (by norm_num [CITY_SUPPLY_FLOW_RATE]) hr)
        (by norm_num [SIMULATION_INTERVAL_SECONDS])), h.2.1, h.2.2⟩
  · exact h

theorem p1_step_Inv (ps : PumpId → Bool) (tk : Tanks) (h : tk.Inv) : (p1_step ps tk).Inv := by
  unfold p1_step
  split_ifs
  · exact ⟨Tank.remove_water_Inv _ _ h.1 (by norm_num [P1_FLOW_RATE, SIMULATION_INTERVAL_SECONDS]),
      Tank.add_water_Inv _ _ h.2.1
        (Tank.remove_water_snd_nonneg _ _ h.1 (by norm_num [P1_FLOW_RATE, SIMULATION_INTERVAL_SECONDS])),
      h.2.2⟩
  · exact h

theorem p2_step_Inv (ps : PumpId → Bool) (tk : Tanks) (h : tk.Inv) : (p2_step ps tk).Inv := by
  unfold p2_step
  split_ifs
  · exact ⟨h.1, Tank.add_water_Inv _ _ h.2.1 (by norm_num [P2_FLOW_RATE, SIMULATION_INTERVAL_SECONDS]), h.2.2⟩
  · exact h

theorem p3_step_Inv (ps : PumpId → Bool) (tk : Tanks) (h : tk.Inv) : (p3_step ps tk).Inv := by
  unfold p3_step
  split_ifs
  · exact ⟨h.1,
      Tank.remove_water_Inv _ _ h.2.1 (by norm_num [P3_FLOW_RATE, SIMULATION_INTERVAL_SECONDS]),
      Tank.add_water_Inv _ _ h.2.2
        (Tank.remove_water_snd_nonneg _ _ h.2.1 (by norm_num [P3_FLOW_RATE, SIMULATION_INTERVAL_SECONDS]))⟩
  · exact h

theorem household_step_Inv (tk : Tanks) (h : tk.Inv) : (household_step tk).Inv :=
  ⟨h.1, h.2.1,
    Tank.remove_water_Inv _ _ h.2.2 (by norm_num [HOUSEHOLD_CONSUMPTION_RATE, SIMULATION_INTERVAL_SECONDS])⟩

theorem update_tank_levels_Inv (r : ℚ) (ps : PumpId → Bool) (hour : ℕ) (tk : Tanks)
    (h : tk.Inv) (hr : 0 ≤ r) : (update_tank_levels r ps hour tk).Inv :=
  household_step_Inv _ (p3_step_Inv _ _ (p2_step_Inv _ _ (p1_step_Inv _ _ (city_supply_step_Inv _ _ _ h hr))))

/-- A name for the three module-level tanks of the simulator. -/
inductive TankId where
  | main_line
  | underground
  | overhead
deriving DecidableEq, Repr

def Tanks.modify (tk : Tanks) (t : TankId) (f : Tank → Tank) : Tanks :=
  match t with
  | .main_line => { tk with main_line := f tk.main_line }
  | .underground => { tk with underground := f tk.underground }
  | .overhead => { tk with overhead := f tk.overhead }

/-- One call in a client interaction sequence with the simulator: an
`add_water` or `remove_water` on one of the tanks, or one
`update_tank_levels` tick (with its injected flow-variation factor and
which pumps are reported as running). -/
inductive SimOp where
  | addOp (t : TankId) (v : ℚ)
  | removeOp (t : TankId) (v : ℚ)
  | tickOp (flow_variation : ℚ) (p1 p2 p3 : Bool) (hour : ℕ)
deriving DecidableEq, Repr

def SimOp.apply : SimOp → Tanks → Tanks
  | .addOp t v, tk => tk.modify t (fun tank => (tank.add_water v).1)
  | .removeOp t v, tk => tk.modify t (fun tank => (tank.remove_water v).1)
  | .tickOp r p1 p2 p3 hour, tk =>
      update_tank_levels r (fun pid => match pid with | .P1 => p1 | .P2 => p2 | .P3 => p3) hour tk

/-- The call is one the claim ranges over: nonnegative volumes for
`add_water` / `remove_water`, a nonnegative flow-variation factor for the
tick (the code draws it from `uniform(0.8, 1.2)`). -/
def SimOp.Valid : SimOp → Prop
  | .addOp _ v => 0 ≤ v
  | .removeOp _ v => 0 ≤ v
  | .tickOp r _ _ _ _ => 0 ≤ r

instance (op : SimOp) : Decidable op.Valid := by
  cases op <;> (unfold SimOp.Valid; infer_instance)

def applySimOps (ops : List SimOp) (tk : Tanks) : Tanks :=
  ops.foldl (fun tk op => op.apply tk) tk

theorem Tanks.modify_Inv (tk : Tanks) (t : TankId) (f : Tank → Tank)
    (h : tk.Inv) (hf : ∀ u : Tank, u.Inv → (f u).Inv) : (tk.modify t f).Inv := by
  cases t
  · exact ⟨hf _ h.1, h.2.1, h.2.2⟩
  · exact ⟨h.1, hf _ h.2.1, h.2.2⟩
  · exact ⟨h.1, h.2.1, hf _ h.2.2⟩

theorem SimOp.apply_Inv (op : SimOp) (tk : Tanks) (h : tk.Inv) (hop : op.Valid) :
    (op.apply tk).Inv := by
  cases op with
  | addOp t v => exact Tanks.modify_Inv _ _ _ h (fun u hu => Tank.add_water_Inv _ _ hu hop)
  | removeOp t v => exact Tanks.modify_Inv _ _ _ h (fun u hu => Tank.remove_water_Inv _ _ hu hop)
  | tickOp r p1 p2 p3 hour => exact update_tank_levels_Inv _ _ _ _ h hop

theorem applySimOps_Inv (ops : List SimOp) (tk : Tanks) (h0 : tk.Inv)
    (hops : ∀ op ∈ ops, op.Valid) : (applySimOps ops tk).Inv := by
  induction ops generalizing tk with
  | nil => exact h0
  | cons op rest ih =>
      exact ih _ (SimOp.apply_Inv op tk h0 (hops op (by simp)))
        (fun o ho => hops o (by simp [ho]))

/-- C4: for every tank ensemble and every finite sequence of
`add_water(v)` with `v ≥ 0`, `remove_water(v)` with `v ≥ 0`, and
`update_tank_levels` calls starting from a valid initial state, each
tank's volume stays within `[0, capacity]` and the reported level
percentage stays within `[0, 100]`. -/
theorem C4_tank_invariant (tk : Tanks) (ops : List SimOp) (h0 : tk.Inv)
    (hops : ∀ op ∈ ops, op.Valid) :
    (applySimOps ops tk).Inv ∧
    (0 ≤ (get_current_water_levels (applySimOps ops tk)).2.main_line ∧
      (get_current_water_levels (applySimOps ops tk)).2.main_line ≤ 100) ∧
    (0 ≤ (get_current_water_levels (applySimOps ops tk)).2.underground ∧
      (get_current_water_levels (applySimOps ops tk)).2.underground ≤ 100) ∧
    (0 ≤ (get_current_water_levels (applySimOps ops tk)).2.overhead ∧
      (get_current_water_levels (applySimOps ops tk)).2.overhead ≤ 100) :=
  ⟨applySimOps_Inv ops tk h0 hops,
    Tank.get_level_percentage_bounds _,
    Tank.get_level_percentage_bounds _,
    Tank.get_level_percentage_bounds _⟩

unseal Rat.mul Rat.inv Rat.add Rat.sub in
/-- Witness for C4 at a concrete initial state and call sequence. -/
theorem C4_witness :
    tanks_start.Inv ∧
    (∀ op ∈ [SimOp.addOp .main_line 500, SimOp.tickOp 1 true true true 12,
      SimOp.removeOp .overhead 5000], op.Valid) ∧
    ((applySimOps [SimOp.addOp .main_line 500, SimOp.tickOp 1 true true true 12,
        SimOp.removeOp .overhead 5000] tanks_start).Inv ∧
      (0 ≤ (get_current_water_levels (applySimOps [SimOp.addOp .main_line 500,
          SimOp.tickOp 1 true true true 12, SimOp.removeOp .overhead 5000] tanks_start)).2.main_line ∧
        (get_current_water_levels (applySimOps [SimOp.addOp .main_line 500,
          SimOp.tickOp 1 true true true 12, SimOp.removeOp .overhead 5000] tanks_start)).2.main_line ≤ 100) ∧
      (0 ≤ (get_current_water_levels (applySimOps [SimOp.addOp .main_line 500,
          SimOp.tickOp 1 true true true 12, SimOp.removeOp .overhead 5000] tanks_start)).2.underground ∧
        (get_current_water_levels (applySimOps [SimOp.addOp .main_line 500,
          SimOp.tickOp 1 true true true 12, SimOp.removeOp .overhead 5000] tanks_start)).2.underground ≤ 100) ∧
      (0 ≤ (get_current_water_levels (applySimOps [SimOp.addOp .main_line 500,
          SimOp.tickOp 1 true true true 12, SimOp.removeOp .overhead 5000] tanks_start)).2.overhead ∧
        (get_current_water_levels (applySimOps [SimOp.addOp .main_line 500,
          SimOp.tickOp 1 true true true 12, SimOp.removeOp .overhead 5000] tanks_start)).2.overhead ≤ 100)) :=
  ⟨by decide, by decide, C4_tank_invariant _ _ (by decide) (by decide)⟩

/-- C5: `remove_water(v)` returns exactly `min(v, pre-call volume)` (hence
never more than `v` nor than the pre-call volume), and `add_water(v)`
returns overflow `max(0, pre_volume + v - capacity)` while setting the new
volume to `min(capacity, pre_volume + v)`. -/
theorem C5_add_remove_exact (t : Tank) (v : ℚ) (hv : 0 ≤ v) :
    (t.remove_water v).2 = min v t.current_volume ∧
    (t.remove_water v).2 ≤ v ∧
    (t.remove_water v).2 ≤ t.current_volume ∧
    (t.add_water v).2 = max 0 (t.current_volume + v - t.capacity) ∧
    ((t.add_water v).1).current_volume = min t.capacity (t.current_volume + v) :=
  ⟨rfl, min_le_left _ _, min_le_right _ _, rfl, rfl⟩

unseal Rat.mul Rat.inv Rat.add Rat.sub in
/-- Witness for C5 at a concrete tank and volume. -/
theorem C5_witness :
    (0 : ℚ) ≤ 7 ∧
    (({ name := "T", capacity := 100, current_volume := 40, level_pct := 40 } : Tank).remove_water 7).2 =
      min 7 ({ name := "T", capacity := 100, current_volume := 40, level_pct := 40 } : Tank).current_volume ∧
    (({ name := "T", capacity := 100, current_volume := 40, level_pct := 40 } : Tank).remove_water 7).2 ≤ 7 ∧
    (({ name := "T", capacity := 100, current_volume := 40, level_pct := 40 } : Tank).remove_water 7).2 ≤
      ({ name := "T", capacity := 100, current_volume := 40, level_pct := 40 } : Tank).current_volume ∧
    (({ name := "T", capacity := 100, current_volume := 40, level_pct := 40 } : Tank).add_water 7).2 =
      max 0 (({ name := "T", capacity := 100, current_volume := 40, level_pct := 40 } : Tank).current_volume + 7 -
        ({ name := "T", capacity := 100, current_volume := 40, level_pct := 40 } : Tank).capacity) ∧
    ((({ name := "T", capacity := 100, current_volume := 40, level_pct := 40 } : Tank).add_water 7).1).current_volume =
      min ({ name := "T", capacity := 100, current_volume := 40, level_pct := 40 } : Tank).capacity
        (({ name := "T", capacity := 100, current_volume := 40, level_pct := 40 } : Tank).current_volume + 7) :=
  ⟨by norm_num, (C5_add_remove_exact _ 7 (by norm_num)).1, (C5_add_remove_exact _ 7 (by norm_num)).2.1,
    (C5_add_remove_exact _ 7 (by norm_num)).2.2.1, (C5_add_remove_exact _ 7 (by norm_num)).2.2.2.1,
    (C5_add_remove_exact _ 7 (by norm_num)).2.2.2.2⟩

/-! ### Simulation reset (claims C9, C10) -/

theorem clamp_of_bounds (q : ℚ) (h0 : 0 ≤ q) (h1 : q ≤ 100) :
    max 0 (min 100 q) = q := by
  rw [min_eq_right h1, max_eq_right h0]

theorem Tank.init_level (n : String) (cap pct : ℚ) (hcap : cap ≠ 0) :
    ((Tank.init n cap pct).get_level_percentage).2 = max 0 (min 100 pct) := by
  unfold Tank.init Tank.get_level_percentage
  have h : pct / 100 * cap / cap * 100 = pct := by
    field_simp
    ring
  simp only [h]

/-- C9: `reset_simulation` with a map holding percentages in `[0, 100]`
for all three tanks, followed by `get_current_water_levels` with no
intervening tick, reads back exactly the given percentages. -/
theorem C9_reset_roundtrip (m : List (String × ℚ)) (a b c : ℚ)
    (hma : m.lookup "main_line" = some a)
    (hub : m.lookup "underground" = some b)
    (hoc : m.lookup "overhead" = some c)
    (ha : 0 ≤ a ∧ a ≤ 100) (hb : 0 ≤ b ∧ b ≤ 100) (hc : 0 ≤ c ∧ c ≤ 100) :
    ∃ tk, reset_simulation (some m) = Except.ok tk ∧
      (get_current_water_levels tk).2 = { main_line := a, underground := b, overhead := c } := by
  have hne : m.isEmpty = false := by
    cases m
    · simp [List.lookup] at hma
    · rfl
  refine ⟨{ main_line := Tank.init "Main Line Tank" MAIN_LINE_TANK_CAPACITY a,
            underground := Tank.init "Underground Tank" UNDERGROUND_TANK_CAPACITY b,
            overhead := Tank.init "Overhead Tank" OVERHEAD_TANK_CAPACITY c }, ?_, ?_⟩
  · simp [reset_simulation, hne, hma, hub, hoc]
  · have h1 := Tank.init_level "Main Line Tank" MAIN_LINE_TANK_CAPACITY a (by norm_num [MAIN_LINE_TANK_CAPACITY])
    have h2 := Tank.init_level "Underground Tank" UNDERGROUND_TANK_CAPACITY b (by norm_num [UNDERGROUND_TANK_CAPACITY])
    have h3 := Tank.init_level "Overhead Tank" OVERHEAD_TANK_CAPACITY c (by norm_num [OVERHEAD_TANK_CAPACITY])
    simp only [get_current_water_levels, Levels.mk.injEq]
    exact ⟨h1.trans (clamp_of_bounds a ha.1 ha.2),
      h2.trans (clamp_of_bounds b hb.1 hb.2),
      h3.trans (clamp_of_bounds c hc.1 hc.2)⟩

unseal Rat.mul Rat.inv Rat.add Rat.sub in
/-- Witness for C9 at the claim's concrete map {main_line: 20,
underground: 30, overhead: 50}. -/
theorem C9_witness :
    ([("main_line", (20:ℚ)), ("underground", 30), ("overhead", 50)].lookup "main_line" = some 20) ∧
    ([("main_line", (20:ℚ)), ("underground", 30), ("overhead", 50)].lookup "underground" = some 30) ∧
    ([("main_line", (20:ℚ)), ("underground", 30), ("overhead", 50)].lookup "overhead" = some 50) ∧
    ((0:ℚ) ≤ 20 ∧ (20:ℚ) ≤ 100) ∧ ((0:ℚ) ≤ 30 ∧ (30:ℚ) ≤ 100) ∧ ((0:ℚ) ≤ 50 ∧ (50:ℚ) ≤ 100) ∧
    (∃ tk, reset_simulation (some [("main_line", 20), ("underground", 30), ("overhead", 50)]) = Except.ok tk ∧
      (get_current_water_levels tk).2 = { main_line := 20, underground := 30, overhead := 50 }) :=
  ⟨by decide, by decide, by decide, by norm_num, by norm_num, by norm_num,
    C9_reset_roundtrip _ 20 30 50 (by decide) (by decide) (by decide)
      (by norm_num) (by norm_num) (by norm_num)⟩

/-- C10: `reset_simulation` with a non-empty map missing any of the three
tank keys fails with a `KeyError`; the defaults {20, 30, 50} are used
exactly when the argument is absent (`None`) or the map is empty. -/
theorem C10_reset_partial (m : List (String × ℚ)) (hne : m ≠ [])
    (hmiss : m.lookup "main_line" = none ∨ m.lookup "underground" = none ∨
      m.lookup "overhead" = none) :
    (∃ e, reset_simulation (some m) = Except.error e) ∧
    reset_simulation none = Except.ok
      { main_line := Tank.init "Main Line Tank" MAIN_LINE_TANK_CAPACITY 20,
        underground := Tank.init "Underground Tank" UNDERGROUND_TANK_CAPACITY 30,
        overhead := Tank.init "Overhead Tank" OVERHEAD_TANK_CAPACITY 50 } ∧
    reset_simulation (some []) = Except.ok
      { main_line := Tank.init "Main Line Tank" MAIN_LINE_TANK_CAPACITY 20,
        underground := Tank.init "Underground Tank" UNDERGROUND_TANK_CAPACITY 30,
        overhead := Tank.init "Overhead Tank" OVERHEAD_TANK_CAPACITY 50 } := by
  have hne' : m.isEmpty = false := by
    cases m
    · exact absurd rfl hne
    · rfl
  refine ⟨?_, rfl, rfl⟩
  rcases hmiss with h | h | h
  · exact ⟨"KeyError: main_line", by simp [reset_simulation, hne', h]⟩
  · cases hml : m.lookup "main_line" with
    | none => exact ⟨"KeyError: main_line", by simp [reset_simulation, hne', hml]⟩
    | some a => exact ⟨"KeyError: underground", by simp [reset_simulation, hne', hml, h]⟩
  · cases hml : m.lookup "main_line" with
    | none => exact ⟨"KeyError: main_line", by simp [reset_simulation, hne', hml]⟩
    | some a =>
        cases hug : m.lookup "underground" with
        | none => exact ⟨"KeyError: underground", by simp [reset_simulation, hne', hml, hug]⟩
        | some b => exact ⟨"KeyError: overhead", by simp [reset_simulation, hne', hml, hug, h]⟩

/-- Witness for C10 at a concrete non-empty map missing "main_line". -/
theorem C10_witness :
    ([("underground", (30:ℚ)), ("overhead", 50)] ≠ ([] : List (String × ℚ))) ∧
    (([("underground", (30:ℚ)), ("overhead", 50)].lookup "main_line" = none ∨
      [("underground", (30:ℚ)), ("overhead", 50)].lookup "underground" = none ∨
      [("underground", (30:ℚ)), ("overhead", 50)].lookup "overhead" = none)) ∧
    ((∃ e, reset_simulation (some [("underground", 30), ("overhead", 50)]) = Except.error e) ∧
      reset_simulation none = Except.ok
        { main_line := Tank.init "Main Line Tank" MAIN_LINE_TANK_CAPACITY 20,
          underground := Tank.init "Underground Tank" UNDERGROUND_TANK_CAPACITY 30,
          overhead := Tank.init "Overhead Tank" OVERHEAD_TANK_CAPACITY 50 } ∧
      reset_simulation (some []) = Except.ok
        { main_line := Tank.init "Main Line Tank" MAIN_LINE_TANK_CAPACITY 20,
          underground := Tank.init "Underground Tank" UNDERGROUND_TANK_CAPACITY 30,
          overhead := Tank.init "Overhead Tank" OVERHEAD_TANK_CAPACITY 50 }) :=
  ⟨by decide, by decide,
    C10_reset_partial _ (by decide) (by decide)⟩

/-! ### Concrete cycle evaluations (claims C1, C2, C7, C8) -/

/-- Input for C1: P1 running manually, P3 running automatically, P1
override requested, non-peak time, and a main line that falls below the
manual-bypass minimum after the simulation step. -/
def c1_state : SystemState :=
  { ctrl := { AutomationController.init with
      p1 := { pump_id := "P1", state := PumpState.MANUAL_ON, error_message := none },
      p3 := { pump_id := "P3", state := PumpState.ON, error_message := none },
      mo_P1 := true },
    tanks := { main_line := { name := "Main Line Tank", capacity := 1000, current_volume := 30, level_pct := 3 },
               underground := { name := "Underground Tank", capacity := 5000, current_volume := 2500, level_pct := 50 },
               overhead := { name := "Overhead Tank", capacity := 2000, current_volume := 1000, level_pct := 50 } },
    pressure := [true, true],
    log := [] }

unseal Rat.mul Rat.inv Rat.add Rat.sub in
/-- C1: in the P1 manual-bypass-failure branch the source calls
`_handle_pump_stop(pump_id, ...)` with the loop variable left over from
the safety-sweep for-loop (always "P3"), not "P1".  At this input the
cycle takes that branch (override requested, non-peak, main line below
5%): the warning is appended, but P3 is the pump stopped with the bypass
reason while P1 keeps running in `MANUAL_ON` — against the claim (and the
spec's stated intent) that P1 is the pump stopped. -/
theorem C1_wrong_pump_stopped :
    ((run_control_cycle ⟨28800, 5⟩ 1 c1_state).ctrl.getPump .P1).state = PumpState.MANUAL_ON ∧
    ((run_control_cycle ⟨28800, 5⟩ 1 c1_state).ctrl.getPump .P3).state = PumpState.OFF ∧
    ({ pump_id := PumpId.P3, action := "STOP",
       reason := "Manual start condition not met (Main Line < 5.0%)" } : LogEntry) ∈
      (run_control_cycle ⟨28800, 5⟩ 1 c1_state).log ∧
    (∀ e ∈ (run_control_cycle ⟨28800, 5⟩ 1 c1_state).log,
      ¬ (e.pump_id = PumpId.P1 ∧ e.action = "STOP")) ∧
    "P1 Manual Start failed: Main Line Tank < 5.0%" ∈
      (run_control_cycle ⟨28800, 5⟩ 1 c1_state).ctrl.warnings ∧
    (prepare_cycle ⟨28800, 5⟩ 1 c1_state).ctrl.last_levels.main_line < P1_MANUAL_BYPASS_MIN_MAIN_LINE ∧
    c1_state.ctrl.mo_P1 = true ∧
    (run_control_cycle ⟨28800, 5⟩ 1 c1_state).ctrl.is_peak_hours = false := by
  decide

/-- Input for C2's counterexample: P1 already in ERROR while its manual
override flag is still set (reachable: enable the override while P1 is
OFF, then let the first manual start attempt hit a pressure fault), with
healthy levels and a passing pressure check on the next cycle. -/
def c2_state : SystemState :=
  { ctrl := { AutomationController.init with
      p1 := { pump_id := "P1", state := PumpState.ERROR, error_message := some "Zero Pressure Detected" },
      mo_P1 := true },
    tanks := { main_line := { name := "Main Line Tank", capacity := 1000, current_volume := 200, level_pct := 20 },
               underground := { name := "Underground Tank", capacity := 5000, current_volume := 1500, level_pct := 30 },
               overhead := { name := "Overhead Tank", capacity := 2000, current_volume := 1000, level_pct := 50 } },
    pressure := [true],
    log := [] }

unseal Rat.mul Rat.inv Rat.add Rat.sub in
/-- Counterexample to C2 as stated: one `run_control_cycle` (non-peak,
pressure check passing, override flag still set) moves P1 out of `ERROR`
into `MANUAL_ON` without any `reset_pump_error` call. -/
theorem C2_counterexample :
    (c2_state.ctrl.getPump .P1).state = PumpState.ERROR ∧
    ((run_control_cycle ⟨28800, 5⟩ 1 c2_state).ctrl.getPump .P1).state = PumpState.MANUAL_ON := by
  decide

/-- Input for C7's counterexample: all three post-tick levels below 5%,
P1 and P2 OFF, non-peak, pressure oracle passing — but the P2 manual
override flag happens to be set. -/
def c7_state : SystemState :=
  { ctrl := { AutomationController.init with mo_P2 := true },
    tanks := { main_line := { name := "Main Line Tank", capacity := 1000, current_volume := 30, level_pct := 3 },
               underground := { name := "Underground Tank", capacity := 5000, current_volume := 100, level_pct := 2 },
               overhead := { name := "Overhead Tank", capacity := 2000, current_volume := 40, level_pct := 2 } },
    pressure := [true],
    log := [] }

unseal Rat.mul Rat.inv Rat.add Rat.sub in
/-- Counterexample to C7 as stated: with the P2 override flag set, all the
claim's stated conditions hold (non-peak, post-tick levels all < 5%, P1
and P2 OFF, pressure success for P2), yet P2 starts as `MANUAL_ON` with
reason "Manual Override Activated" — not with reason "Critical low levels
detected in all tanks". -/
theorem C7_counterexample :
    (prepare_cycle ⟨28800, 5⟩ 1 c7_state).ctrl.last_levels.main_line < P2_START_THRESHOLD_MAIN_LINE ∧
    (prepare_cycle ⟨28800, 5⟩ 1 c7_state).ctrl.last_levels.underground < P2_START_THRESHOLD_UNDERGROUND ∧
    (prepare_cycle ⟨28800, 5⟩ 1 c7_state).ctrl.last_levels.overhead < P2_START_THRESHOLD_OVERHEAD ∧
    (c7_state.ctrl.getPump .P1).state = PumpState.OFF ∧
    (c7_state.ctrl.getPump .P2).state = PumpState.OFF ∧
    (∀ b ∈ c7_state.pressure, b = true) ∧
    ¬ (PEAK_HOUR_START ≤ (28800:ℕ) ∧ (28800:ℕ) ≤ PEAK_HOUR_END) ∧
    ((run_control_cycle ⟨28800, 5⟩ 1 c7_state).ctrl.getPump .P2).state = PumpState.MANUAL_ON ∧
    (∀ e ∈ (run_control_cycle ⟨28800, 5⟩ 1 c7_state).log,
      ¬ (e.pump_id = PumpId.P2 ∧ e.reason = "Critical low levels detected in all tanks")) := by
  decide

/-- Input for C8's counterexample: P1 in ERROR with its override flag
currently set. -/
def c8_state : SystemState :=
  { ctrl := { AutomationController.init with
      p1 := { pump_id := "P1", state := PumpState.ERROR, error_message := some "Zero Pressure Detected" },
      mo_P1 := true },
    tanks := { main_line := { name := "Main Line Tank", capacity := 1000, current_volume := 200, level_pct := 20 },
               underground := { name := "Underground Tank", capacity := 5000, current_volume := 1500, level_pct := 30 },
               overhead := { name := "Overhead Tank", capacity := 2000, current_volume := 1000, level_pct := 50 } },
    pressure := [],
    log := [] }

unseal Rat.mul Rat.inv Rat.add Rat.sub in
/-- Counterexample to C8 as stated: `request_manual_override("P1", False)`
while P1 is ERROR changes the manual_override map (true becomes false) and
appends no warning — the guard only rejects the `enable = True` case. -/
theorem C8_counterexample :
    (c8_state.ctrl.getPump .P1).state = PumpState.ERROR ∧
    c8_state.ctrl.mo_P1 = true ∧
    (request_manual_override .P1 false c8_state).ctrl.mo_P1 = false ∧
    (request_manual_override .P1 false c8_state).ctrl.warnings = [] := by
  decide

/-! ### Frame lemmas for the cycle phases -/

@[simp]
theorem setPump_is_peak (c : AutomationController) (pid : PumpId) (p : Pump) :
    (c.setPump pid p).is_peak_hours = c.is_peak_hours := by
  cases pid <;> rfl

@[simp]
theorem setPump_mo_P1 (c : AutomationController) (pid : PumpId) (p : Pump) :
    (c.setPump pid p).mo_P1 = c.mo_P1 := by
  cases pid <;> rfl

@[simp]
theorem setPump_mo_P2 (c : AutomationController) (pid : PumpId) (p : Pump) :
    (c.setPump pid p).mo_P2 = c.mo_P2 := by
  cases pid <;> rfl

@[simp]
theorem log_action_ctrl (pid : PumpId) (a r : String) (s : SystemState) :
    (log_action pid a r s).ctrl = s.ctrl := rfl

@[simp]
theorem log_action_pressure (pid : PumpId) (a r : String) (s : SystemState) :
    (log_action pid a r s).pressure = s.pressure := rfl

theorem log_action_log_mono (pid : PumpId) (a r : String) (s : SystemState)
    (e : LogEntry) (h : e ∈ s.log) : e ∈ (log_action pid a r s).log := by
  simp [log_action]
  exact Or.inl h

theorem check_pressure_all_true (pid : PumpId) (o : List Bool) (h : ∀ b ∈ o, b = true) :
    (check_pump_pressure pid o).1 = true ∧ ∀ b ∈ (check_pump_pressure pid o).2, b = true := by
  cases o <;> simp_all [check_pump_pressure]

theorem handle_pump_stop_getPump_ne (pid q : PumpId) (r a : String) (s : SystemState)
    (h : q ≠ pid) : (handle_pump_stop pid r a s).ctrl.getPump q = s.ctrl.getPump q := by
  simp only [handle_pump_stop]
  split_ifs
  · simp [getPump_setPump_ne _ _ _ _ h]
  · rfl

theorem handle_pump_stop_cases (pid : PumpId) (r a : String) (s : SystemState) :
    (((handle_pump_stop pid r a s).ctrl.getPump pid).state = PumpState.OFF ∧
      ({ pump_id := pid, action := a, reason := r } : LogEntry) ∈ (handle_pump_stop pid r a s).log) ∨
    handle_pump_stop pid r a s = s := by
  simp only [handle_pump_stop]
  split_ifs
  · left
    constructor
    · simp
    · simp [log_action]
  · right
    rfl

theorem handle_pump_stop_of_not_on (pid : PumpId) (r a : String) (s : SystemState)
    (h : (s.ctrl.getPump pid).is_on = false) : handle_pump_stop pid r a s = s := by
  simp only [handle_pump_stop]
  simp [h]

@[simp]
theorem handle_pump_stop_pressure (pid : PumpId) (r a : String) (s : SystemState) :
    (handle_pump_stop pid r a s).pressure = s.pressure := by
  simp only [handle_pump_stop]
  split_ifs <;> rfl

@[simp]
theorem handle_pump_stop_is_peak (pid : PumpId) (r a : String) (s : SystemState) :
    (handle_pump_stop pid r a s).ctrl.is_peak_hours = s.ctrl.is_peak_hours := by
  simp only [handle_pump_stop]
  split_ifs <;> simp

@[simp]
theorem handle_pump_stop_mo_P1 (pid : PumpId) (r a : String) (s : SystemState) :
    (handle_pump_stop pid r a s).ctrl.mo_P1 = s.ctrl.mo_P1 := by
  simp only [handle_pump_stop]
  split_ifs <;> simp

@[simp]
theorem handle_pump_stop_mo_P2 (pid : PumpId) (r a : String) (s : SystemState) :
    (handle_pump_stop pid r a s).ctrl.mo_P2 = s.ctrl.mo_P2 := by
  simp only [handle_pump_stop]
  split_ifs <;> simp

theorem handle_pump_stop_log_mono (pid : PumpId) (r a : String) (s : SystemState)
    (e : LogEntry) (h : e ∈ s.log) : e ∈ (handle_pump_stop pid r a s).log := by
  simp only [handle_pump_stop]
  split_ifs
  · exact log_action_log_mono _ _ _ _ _ h
  · exact h

theorem handle_pump_stop_not_on (pid : PumpId) (r a : String) (s : SystemState) :
    ((handle_pump_stop pid r a s).ctrl.getPump pid).state ≠ PumpState.ON := by
  simp only [handle_pump_stop]
  split_ifs with h
  · simp
  · simp only [Bool.not_eq_true, Pump.not_is_on_iff] at h
    exact h.1

theorem handle_pump_stop_err (pid q : PumpId) (r a : String) (s : SystemState)
    (h : (s.ctrl.getPump q).state = PumpState.ERROR) :
    ((handle_pump_stop pid r a s).ctrl.getPump q).state = PumpState.ERROR := by
  by_cases hq : q = pid
  · subst hq
    rw [handle_pump_stop_of_not_on _ _ _ _ (by simp [Pump.is_on, h])]
    exact h
  · rw [handle_pump_stop_getPump_ne _ _ _ _ _ hq]
    exact h

theorem handle_pump_start_getPump_ne (pid q : PumpId) (r : String) (m : Bool) (s : SystemState)
    (h : q ≠ pid) : ((handle_pump_start pid r m s).1).ctrl.getPump q = s.ctrl.getPump q := by
  simp only [handle_pump_start]
  split_ifs <;> simp [getPump_setPump_ne _ _ _ _ h]

theorem handle_pump_start_manual_no_new_on (pid q : PumpId) (r : String) (s : SystemState)
    (h : (((handle_pump_start pid r true s).1).ctrl.getPump q).state = PumpState.ON) :
    (s.ctrl.getPump q).state = PumpState.ON := by
  by_cases hq : q = pid
  · subst hq
    simp only [handle_pump_start] at h
    split_ifs at h <;> simp_all
  · rwa [handle_pump_start_getPump_ne _ _ _ _ _ hq] at h

theorem handle_pump_start_pressure (pid : PumpId) (r : String) (m : Bool) (s : SystemState) :
    ((handle_pump_start pid r m s).1).pressure = s.pressure ∨
    ((handle_pump_start pid r m s).1).pressure = (check_pump_pressure pid s.pressure).2 := by
  simp only [handle_pump_start]
  split_ifs <;> simp

theorem handle_pump_start_pressure_all (pid : PumpId) (r : String) (m : Bool) (s : SystemState)
    (h : ∀ b ∈ s.pressure, b = true) :
    ∀ b ∈ ((handle_pump_start pid r m s).1).pressure, b = true := by
  rcases handle_pump_start_pressure pid r m s with h1 | h1 <;> rw [h1]
  · exact h
  · exact (check_pressure_all_true pid s.pressure h).2

theorem handle_pump_start_log_mono (pid : PumpId) (r : String) (m : Bool) (s : SystemState)
    (e : LogEntry) (h : e ∈ s.log) : e ∈ ((handle_pump_start pid r m s).1).log := by
  simp only [handle_pump_start]
  split_ifs <;> simp_all [log_action]

@[simp]
theorem handle_pump_start_is_peak (pid : PumpId) (r : String) (m : Bool) (s : SystemState) :
    ((handle_pump_start pid r m s).1).ctrl.is_peak_hours = s.ctrl.is_peak_hours := by
  simp only [handle_pump_start]
  split_ifs <;> simp

@[simp]
theorem handle_pump_start_mo_P1 (pid : PumpId) (r : String) (m : Bool) (s : SystemState) :
    ((handle_pump_start pid r m s).1).ctrl.mo_P1 = s.ctrl.mo_P1 := by
  simp only [handle_pump_start]
  split_ifs <;> simp

@[simp]
theorem handle_pump_start_mo_P2 (pid : PumpId) (r : String) (m : Bool) (s : SystemState) :
    ((handle_pump_start pid r m s).1).ctrl.mo_P2 = s.ctrl.mo_P2 := by
  simp only [handle_pump_start]
  split_ifs <;> simp

theorem handle_pump_start_success (pid : PumpId) (r : String) (s : SystemState)
    (hoff : (s.ctrl.getPump pid).is_on = false)
    (hp : ∀ b ∈ s.pressure, b = true) :
    (((handle_pump_start pid r false s).1).ctrl.getPump pid).state = PumpState.ON ∧
    ({ pump_id := pid, action := "START", reason := r } : LogEntry) ∈
      ((handle_pump_start pid r false s).1).log := by
  have hc := check_pressure_all_true pid s.pressure hp
  simp only [handle_pump_start, hoff, Bool.false_eq_true, not_false_eq_true, if_true, hc.1]
  simp [log_action]

theorem sweep_pump_of_not_on (pid : PumpId) (s : SystemState)
    (h : (s.ctrl.getPump pid).is_on = false) : sweep_pump pid s = s := by
  simp only [sweep_pump]
  simp [h]

theorem sweep_pump_getPump_ne (pid q : PumpId) (s : SystemState) (h : q ≠ pid) :
    (sweep_pump pid s).ctrl.getPump q = s.ctrl.getPump q := by
  simp only [sweep_pump]
  split_ifs
  all_goals first
    | rfl
    | exact handle_pump_stop_getPump_ne _ _ _ _ _ h
    | simp [log_action, getPump_setPump_ne _ _ _ _ h]

@[simp]
theorem sweep_pump_is_peak (pid : PumpId) (s : SystemState) :
    (sweep_pump pid s).ctrl.is_peak_hours = s.ctrl.is_peak_hours := by
  simp only [sweep_pump]
  split_ifs <;> simp

@[simp]
theorem sweep_pump_mo_P1 (pid : PumpId) (s : SystemState) :
    (sweep_pump pid s).ctrl.mo_P1 = s.ctrl.mo_P1 := by
  simp only [sweep_pump]
  split_ifs <;> simp

@[simp]
theorem sweep_pump_mo_P2 (pid : PumpId) (s : SystemState) :
    (sweep_pump pid s).ctrl.mo_P2 = s.ctrl.mo_P2 := by
  simp only [sweep_pump]
  split_ifs <;> simp

theorem sweep_pump_log_mono (pid : PumpId) (s : SystemState) (e : LogEntry)
    (h : e ∈ s.log) : e ∈ (sweep_pump pid s).log := by
  simp only [sweep_pump]
  split_ifs
  all_goals first
    | exact h
    | exact handle_pump_stop_log_mono _ _ _ _ _ h
    | (simp only [log_action, List.mem_append]; exact Or.inl h)

theorem sweep_pump_pressure (pid : PumpId) (s : SystemState) :
    (sweep_pump pid s).pressure = s.pressure ∨
    (sweep_pump pid s).pressure = (check_pump_pressure pid s.pressure).2 := by
  simp only [sweep_pump]
  split_ifs <;> simp

theorem sweep_pump_pressure_all (pid : PumpId) (s : SystemState)
    (h : ∀ b ∈ s.pressure, b = true) : ∀ b ∈ (sweep_pump pid s).pressure, b = true := by
  rcases sweep_pump_pressure pid s with h1 | h1 <;> rw [h1]
  · exact h
  · exact (check_pressure_all_true pid s.pressure h).2

theorem sweep_pump_no_new_on (pid : PumpId) (s : SystemState)
    (h : (((sweep_pump pid s).ctrl.getPump pid).state = PumpState.ON)) :
    (s.ctrl.getPump pid).state = PumpState.ON := by
  simp only [sweep_pump] at h
  split_ifs at h with h1 h2 h3
  all_goals first
    | exact h
    | exact absurd h (handle_pump_stop_not_on _ _ _ _)
    | simp_all

theorem sweep_pump_peak_on (pid : PumpId) (s : SystemState)
    (hp : s.ctrl.is_peak_hours = true)
    (hON : (s.ctrl.getPump pid).state = PumpState.ON) :
    ((sweep_pump pid s).ctrl.getPump pid).state = PumpState.OFF ∧
    ({ pump_id := pid, action := "STOP", reason := "Peak hours started" } : LogEntry) ∈
      (sweep_pump pid s).log := by
  have hon : (s.ctrl.getPump pid).is_on = true := by simp [Pump.is_on, hON]
  simp only [sweep_pump, hon, if_true, hp, hON]
  rw [if_pos (by simp [hON, hp])]
  rcases handle_pump_stop_cases pid "Peak hours started" "STOP" s with ⟨h1, h2⟩ | hid
  · exact ⟨h1, h2⟩
  · exfalso
    have : (s.ctrl.getPump pid).is_on = true := hon
    simp only [handle_pump_stop, hon, if_true] at hid
    have := congrArg (fun st => (st.ctrl.getPump pid).state) hid
    simp [log_action] at this
    rw [hON] at this
    simp at this

theorem sweep_pump_peak_not_on (pid : PumpId) (s : SystemState)
    (hp : s.ctrl.is_peak_hours = true) :
    ((sweep_pump pid s).ctrl.getPump pid).state ≠ PumpState.ON := by
  intro hON
  have h := sweep_pump_no_new_on pid s hON
  have := (sweep_pump_peak_on pid s hp h).1
  rw [this] at hON
  exact absurd hON (by simp)

theorem sweep_pump_err (pid q : PumpId) (s : SystemState)
    (h : (s.ctrl.getPump q).state = PumpState.ERROR) :
    ((sweep_pump pid s).ctrl.getPump q).state = PumpState.ERROR := by
  by_cases hq : q = pid
  · subst hq
    rw [sweep_pump_of_not_on _ _ (by simp [Pump.is_on, h])]
    exact h
  · rw [sweep_pump_getPump_ne _ _ _ hq]
    exact h

theorem sweep_pump_off (pid q : PumpId) (s : SystemState)
    (h : (s.ctrl.getPump q).state = PumpState.OFF) :
    ((sweep_pump pid s).ctrl.getPump q).state = PumpState.OFF := by
  by_cases hq : q = pid
  · subst hq
    rw [sweep_pump_of_not_on _ _ (by simp [Pump.is_on, h])]
    exact h
  · rw [sweep_pump_getPump_ne _ _ _ hq]
    exact h

@[simp]
theorem getPump_update_warnings (c : AutomationController) (w : List String) (q : PumpId) :
    AutomationController.getPump { c with warnings := w } q = c.getPump q := by
  cases q <;> rfl

@[simp]
theorem getPump_update_sysmsg (c : AutomationController) (m : Option String) (q : PumpId) :
    AutomationController.getPump { c with system_message := m } q = c.getPump q := by
  cases q <;> rfl

@[simp]
theorem getPump_update_last_levels (c : AutomationController) (l : Levels) (q : PumpId) :
    AutomationController.getPump { c with last_levels := l } q = c.getPump q := by
  cases q <;> rfl

@[simp]
theorem getPump_update_warn_msg (c : AutomationController) (w : List String) (m : Option String) (q : PumpId) :
    AutomationController.getPump { c with warnings := w, system_message := m } q = c.getPump q := by
  cases q <;> rfl

@[simp]
theorem getPump_update_peak_meter (c : AutomationController) (b : Bool) (a : String) (q : PumpId) :
    AutomationController.getPump { c with is_peak_hours := b, active_meter := a } q = c.getPump q := by
  cases q <;> rfl

theorem manual_P1_no_new_on (ml : ℚ) (s : SystemState) (q : PumpId)
    (h : ((manual_override_P1 ml .P3 s).ctrl.getPump q).state = PumpState.ON) :
    (s.ctrl.getPump q).state = PumpState.ON := by
  simp only [manual_override_P1] at h
  split_ifs at h with h1 h2 h3 h4 h5 h6
  · simpa using h
  · by_cases hq : q = PumpId.P3
    · subst hq
      exact absurd h (handle_pump_stop_not_on _ _ _ _)
    · rw [handle_pump_stop_getPump_ne _ _ _ _ _ hq] at h
      simpa using h
  · exact h
  · exact handle_pump_start_manual_no_new_on _ _ _ _ h
  · exact h
  · by_cases hq : q = PumpId.P1
    · subst hq
      simp [log_action] at h
    · simp only [log_action_ctrl] at h
      rw [getPump_setPump_ne _ _ _ _ hq] at h
      exact h
  · exact h

@[simp]
theorem manual_P1_is_peak (ml : ℚ) (lid : PumpId) (s : SystemState) :
    (manual_override_P1 ml lid s).ctrl.is_peak_hours = s.ctrl.is_peak_hours := by
  simp only [manual_override_P1]
  split_ifs <;> simp

@[simp]
theorem manual_P1_mo_P1 (ml : ℚ) (lid : PumpId) (s : SystemState) :
    (manual_override_P1 ml lid s).ctrl.mo_P1 = s.ctrl.mo_P1 := by
  simp only [manual_override_P1]
  split_ifs <;> simp

@[simp]
theorem manual_P1_mo_P2 (ml : ℚ) (lid : PumpId) (s : SystemState) :
    (manual_override_P1 ml lid s).ctrl.mo_P2 = s.ctrl.mo_P2 := by
  simp only [manual_override_P1]
  split_ifs <;> simp

theorem manual_P1_log_mono (ml : ℚ) (lid : PumpId) (s : SystemState) (e : LogEntry)
    (h : e ∈ s.log) : e ∈ (manual_override_P1 ml lid s).log := by
  simp only [manual_override_P1]
  split_ifs
  all_goals first
    | exact h
    | exact handle_pump_stop_log_mono _ _ _ _ _ h
    | exact handle_pump_start_log_mono _ _ _ _ _ h
    | (simp only [log_action, List.mem_append]; exact Or.inl h)

theorem manual_P1_pressure_all (ml : ℚ) (lid : PumpId) (s : SystemState)
    (h : ∀ b ∈ s.pressure, b = true) :
    ∀ b ∈ (manual_override_P1 ml lid s).pressure, b = true := by
  simp only [manual_override_P1]
  split_ifs
  all_goals first
    | exact h
    | (rw [handle_pump_stop_pressure]; exact h)
    | exact handle_pump_start_pressure_all _ _ _ _ h
    | (simp only [log_action_pressure]; exact (check_pressure_all_true _ _ h).2)
    | exact (check_pressure_all_true _ _ h).2

theorem manual_P1_peak_keep (ml : ℚ) (s : SystemState) (q : PumpId)
    (hp : s.ctrl.is_peak_hours = true) :
    (manual_override_P1 ml .P3 s).ctrl.getPump q = s.ctrl.getPump q ∨
    ((s.ctrl.getPump q).state = PumpState.MANUAL_ON ∧
      ((manual_override_P1 ml .P3 s).ctrl.getPump q).state = PumpState.ERROR) := by
  simp only [manual_override_P1]
  split_ifs with h1 h2 h3
  · left; simp
  · left; rfl
  · by_cases hq : q = PumpId.P1
    · subst hq
      right
      refine ⟨h2, ?_⟩
      simp [log_action]
    · left
      simp only [log_action_ctrl]
      rw [getPump_setPump_ne _ _ _ _ hq]
  · left; rfl

theorem manual_P1_getPump_P2 (ml : ℚ) (s : SystemState) :
    (manual_override_P1 ml .P3 s).ctrl.getPump .P2 = s.ctrl.getPump .P2 := by
  simp only [manual_override_P1]
  split_ifs
  all_goals first
    | rfl
    | simp
    | (rw [handle_pump_stop_getPump_ne _ _ _ _ _ (by decide)]; simp)
    | (rw [handle_pump_start_getPump_ne _ _ _ _ _ (by decide)])
    | (simp only [log_action_ctrl]; rw [getPump_setPump_ne _ _ _ _ (by decide)])

theorem manual_P1_err (ml : ℚ) (s : SystemState) (q : PumpId)
    (herr : (s.ctrl.getPump q).state = PumpState.ERROR)
    (hq : q = PumpId.P1 → s.ctrl.mo_P1 = false) :
    ((manual_override_P1 ml .P3 s).ctrl.getPump q).state = PumpState.ERROR := by
  simp only [manual_override_P1]
  split_ifs with h1 h2 h3 h4 h5 h6
  · simpa using herr
  · by_cases hq3 : q = PumpId.P3
    · subst hq3
      rw [handle_pump_stop_of_not_on _ _ _ _ (by simp [Pump.is_on, herr])]
      simpa using herr
    · rw [handle_pump_stop_getPump_ne _ _ _ _ _ hq3]
      simpa using herr
  · exact herr
  · by_cases hq1 : q = PumpId.P1
    · subst hq1
      exact absurd h1 (by simp [hq rfl])
    · rw [handle_pump_start_getPump_ne _ _ _ _ _ hq1]
      exact herr
  · exact herr
  · by_cases hq1 : q = PumpId.P1
    · subst hq1
      rw [herr] at h5
      exact absurd h5 (by simp)
    · simp only [log_action_ctrl]
      rw [getPump_setPump_ne _ _ _ _ hq1]
      exact herr
  · exact herr

theorem manual_P2_no_new_on (s : SystemState) (q : PumpId)
    (h : ((manual_override_P2 s).ctrl.getPump q).state = PumpState.ON) :
    (s.ctrl.getPump q).state = PumpState.ON := by
  simp only [manual_override_P2] at h
  split_ifs at h with h1 h2 h3 h4 h5
  · simpa using h
  · exact h
  · exact handle_pump_start_manual_no_new_on _ _ _ _ h
  · exact h
  · by_cases hq : q = PumpId.P2
    · subst hq
      simp [log_action] at h
    · simp only [log_action_ctrl] at h
      rw [getPump_setPump_ne _ _ _ _ hq] at h
      exact h
  · exact h

@[simp]
theorem manual_P2_is_peak (s : SystemState) :
    (manual_override_P2 s).ctrl.is_peak_hours = s.ctrl.is_peak_hours := by
  simp only [manual_override_P2]
  split_ifs <;> simp

@[simp]
theorem manual_P2_mo_P1 (s : SystemState) :
    (manual_override_P2 s).ctrl.mo_P1 = s.ctrl.mo_P1 := by
  simp only [manual_override_P2]
  split_ifs <;> simp

@[simp]
theorem manual_P2_mo_P2 (s : SystemState) :
    (manual_override_P2 s).ctrl.mo_P2 = s.ctrl.mo_P2 := by
  simp only [manual_override_P2]
  split_ifs <;> simp

theorem manual_P2_log_mono (s : SystemState) (e : LogEntry)
    (h : e ∈ s.log) : e ∈ (manual_override_P2 s).log := by
  simp only [manual_override_P2]
  split_ifs
  all_goals first
    | exact h
    | exact handle_pump_start_log_mono _ _ _ _ _ h
    | (simp only [log_action, List.mem_append]; exact Or.inl h)

theorem manual_P2_pressure_all (s : SystemState)
    (h : ∀ b ∈ s.pressure, b = true) :
    ∀ b ∈ (manual_override_P2 s).pressure, b = true := by
  simp only [manual_override_P2]
  split_ifs
  all_goals first
    | exact h
    | exact handle_pump_start_pressure_all _ _ _ _ h
    | (simp only [log_action_pressure]; exact (check_pressure_all_true _ _ h).2)
    | exact (check_pressure_all_true _ _ h).2

theorem manual_P2_peak_keep (s : SystemState) (q : PumpId)
    (hp : s.ctrl.is_peak_hours = true) :
    (manual_override_P2 s).ctrl.getPump q = s.ctrl.getPump q ∨
    ((s.ctrl.getPump q).state = PumpState.MANUAL_ON ∧
      ((manual_override_P2 s).ctrl.getPump q).state = PumpState.ERROR) := by
  simp only [manual_override_P2]
  split_ifs with h1 h2 h3
  · left; simp
  · left; rfl
  · by_cases hq : q = PumpId.P2
    · subst hq
      right
      refine ⟨h2, ?_⟩
      simp [log_action]
    · left
      simp only [log_action_ctrl]
      rw [getPump_setPump_ne _ _ _ _ hq]
  · left; rfl

theorem manual_P2_getPump_P1 (s : SystemState) :
    (manual_override_P2 s).ctrl.getPump .P1 = s.ctrl.getPump .P1 := by
  simp only [manual_override_P2]
  split_ifs
  all_goals first
    | rfl
    | simp
    | (rw [handle_pump_start_getPump_ne _ _ _ _ _ (by decide)])
    | (simp only [log_action_ctrl]; rw [getPump_setPump_ne _ _ _ _ (by decide)])

theorem manual_P2_of_flag_false (s : SystemState)
    (h : s.ctrl.mo_P2 = false)
    (h2 : (s.ctrl.getPump .P2).state ≠ PumpState.MANUAL_ON) :
    manual_override_P2 s = s := by
  simp only [manual_override_P2]
  rw [if_neg (by simp [h]), if_neg h2]

theorem manual_P2_err (s : SystemState) (q : PumpId)
    (herr : (s.ctrl.getPump q).state = PumpState.ERROR)
    (hq : q = PumpId.P2 → s.ctrl.mo_P2 = false) :
    ((manual_override_P2 s).ctrl.getPump q).state = PumpState.ERROR := by
  simp only [manual_override_P2]
  split_ifs with h1 h2 h3 h4 h5
  · simpa using herr
  · exact herr
  · by_cases hq2 : q = PumpId.P2
    · subst hq2
      exact absurd h1 (by simp [hq rfl])
    · rw [handle_pump_start_getPump_ne _ _ _ _ _ hq2]
      exact herr
  · exact herr
  · by_cases hq2 : q = PumpId.P2
    · subst hq2
      rw [herr] at h4
      exact absurd h4 (by simp)
    · simp only [log_action_ctrl]
      rw [getPump_setPump_ne _ _ _ _ hq2]
      exact herr
  · exact herr

theorem handle_pump_stop_p1 (pid : PumpId) (r a : String) (s : SystemState)
    (h : PumpId.P1 ≠ pid) : (handle_pump_stop pid r a s).ctrl.p1 = s.ctrl.p1 :=
  handle_pump_stop_getPump_ne pid .P1 r a s h

theorem handle_pump_stop_p2 (pid : PumpId) (r a : String) (s : SystemState)
    (h : PumpId.P2 ≠ pid) : (handle_pump_stop pid r a s).ctrl.p2 = s.ctrl.p2 :=
  handle_pump_stop_getPump_ne pid .P2 r a s h

theorem handle_pump_stop_p3 (pid : PumpId) (r a : String) (s : SystemState)
    (h : PumpId.P3 ≠ pid) : (handle_pump_stop pid r a s).ctrl.p3 = s.ctrl.p3 :=
  handle_pump_stop_getPump_ne pid .P3 r a s h

theorem handle_pump_start_p1 (pid : PumpId) (r : String) (m : Bool) (s : SystemState)
    (h : PumpId.P1 ≠ pid) : ((handle_pump_start pid r m s).1).ctrl.p1 = s.ctrl.p1 :=
  handle_pump_start_getPump_ne pid .P1 r m s h

theorem handle_pump_start_p2 (pid : PumpId) (r : String) (m : Bool) (s : SystemState)
    (h : PumpId.P2 ≠ pid) : ((handle_pump_start pid r m s).1).ctrl.p2 = s.ctrl.p2 :=
  handle_pump_start_getPump_ne pid .P2 r m s h

theorem handle_pump_start_p3 (pid : PumpId) (r : String) (m : Bool) (s : SystemState)
    (h : PumpId.P3 ≠ pid) : ((handle_pump_start pid r m s).1).ctrl.p3 = s.ctrl.p3 :=
  handle_pump_start_getPump_ne pid .P3 r m s h

set_option maxHeartbeats 1600000 in
theorem auto_P3_getPump_ne (ug oh : ℚ) (s : SystemState) (q : PumpId) (h : q ≠ PumpId.P3) :
    (auto_P3 ug oh s).ctrl.getPump q = s.ctrl.getPump q := by
  cases q with
  | P3 => exact absurd rfl h
  | P1 =>
      have hs1 : ∀ r a st, (handle_pump_stop PumpId.P3 r a st).ctrl.p1 = st.ctrl.p1 :=
        fun r a st => handle_pump_stop_p1 _ _ _ _ (by decide)
      have hs2 : ∀ r m st, ((handle_pump_start PumpId.P3 r m st).1).ctrl.p1 = st.ctrl.p1 :=
        fun r m st => handle_pump_start_p1 _ _ _ _ (by decide)
      simp only [auto_P3]
      split_ifs
      all_goals simp only [AutomationController.getPump, hs1, hs2]
  | P2 =>
      have hs1 : ∀ r a st, (handle_pump_stop PumpId.P3 r a st).ctrl.p2 = st.ctrl.p2 :=
        fun r a st => handle_pump_stop_p2 _ _ _ _ (by decide)
      have hs2 : ∀ r m st, ((handle_pump_start PumpId.P3 r m st).1).ctrl.p2 = st.ctrl.p2 :=
        fun r m st => handle_pump_start_p2 _ _ _ _ (by decide)
      simp only [auto_P3]
      split_ifs
      all_goals simp only [AutomationController.getPump, hs1, hs2]

theorem auto_P3_of_err (ug oh : ℚ) (s : SystemState)
    (herr : (s.ctrl.getPump .P3).state = PumpState.ERROR) : auto_P3 ug oh s = s := by
  simp only [auto_P3]
  rw [if_neg (by simp [herr])]

theorem auto_P3_err (ug oh : ℚ) (s : SystemState) (q : PumpId)
    (herr : (s.ctrl.getPump q).state = PumpState.ERROR) :
    ((auto_P3 ug oh s).ctrl.getPump q).state = PumpState.ERROR := by
  by_cases hq : q = PumpId.P3
  · subst hq
    rw [auto_P3_of_err _ _ _ herr]
    exact herr
  · rw [auto_P3_getPump_ne _ _ _ _ hq]
    exact herr

theorem auto_P3_log_mono (ug oh : ℚ) (s : SystemState) (e : LogEntry)
    (h : e ∈ s.log) : e ∈ (auto_P3 ug oh s).log := by
  simp only [auto_P3]
  split_ifs
  all_goals first
    | exact h
    | exact handle_pump_stop_log_mono _ _ _ _ _ h
    | exact handle_pump_start_log_mono _ _ _ _ _ h

theorem auto_P3_pressure_all (ug oh : ℚ) (s : SystemState)
    (h : ∀ b ∈ s.pressure, b = true) :
    ∀ b ∈ (auto_P3 ug oh s).pressure, b = true := by
  simp only [auto_P3]
  split_ifs
  all_goals try dsimp only
  all_goals first
    | exact h
    | (rw [handle_pump_stop_pressure]; exact h)
    | exact handle_pump_start_pressure_all _ _ _ _ h

set_option maxHeartbeats 1600000 in
theorem auto_P1_getPump_ne (ml ug : ℚ) (s : SystemState) (q : PumpId) (h : q ≠ PumpId.P1) :
    (auto_P1 ml ug s).ctrl.getPump q = s.ctrl.getPump q := by
  cases q with
  | P1 => exact absurd rfl h
  | P2 =>
      have hs1 : ∀ r a st, (handle_pump_stop PumpId.P1 r a st).ctrl.p2 = st.ctrl.p2 :=
        fun r a st => handle_pump_stop_p2 _ _ _ _ (by decide)
      have hs2 : ∀ r m st, ((handle_pump_start PumpId.P1 r m st).1).ctrl.p2 = st.ctrl.p2 :=
        fun r m st => handle_pump_start_p2 _ _ _ _ (by decide)
      simp only [auto_P1]
      split_ifs
      all_goals simp only [AutomationController.getPump, hs1, hs2]
  | P3 =>
      have hs1 : ∀ r a st, (handle_pump_stop PumpId.P1 r a st).ctrl.p3 = st.ctrl.p3 :=
        fun r a st => handle_pump_stop_p3 _ _ _ _ (by decide)
      have hs2 : ∀ r m st, ((handle_pump_start PumpId.P1 r m st).1).ctrl.p3 = st.ctrl.p3 :=
        fun r m st => handle_pump_start_p3 _ _ _ _ (by decide)
      simp only [auto_P1]
      split_ifs
      all_goals simp only [AutomationController.getPump, hs1, hs2]

theorem auto_P1_of_guard (ml ug : ℚ) (s : SystemState)
    (hg : (s.ctrl.getPump .P1).state = PumpState.ERROR ∨
      (s.ctrl.getPump .P1).state = PumpState.MANUAL_ON) : auto_P1 ml ug s = s := by
  simp only [auto_P1]
  rw [if_neg]
  rcases hg with hg | hg <;> simp [hg]

theorem auto_P1_err (ml ug : ℚ) (s : SystemState) (q : PumpId)
    (herr : (s.ctrl.getPump q).state = PumpState.ERROR) :
    ((auto_P1 ml ug s).ctrl.getPump q).state = PumpState.ERROR := by
  by_cases hq : q = PumpId.P1
  · subst hq
    rw [auto_P1_of_guard _ _ _ (Or.inl herr)]
    exact herr
  · rw [auto_P1_getPump_ne _ _ _ _ hq]
    exact herr

theorem auto_P1_log_mono (ml ug : ℚ) (s : SystemState) (e : LogEntry)
    (h : e ∈ s.log) : e ∈ (auto_P1 ml ug s).log := by
  simp only [auto_P1]
  split_ifs
  all_goals first
    | exact h
    | exact handle_pump_stop_log_mono _ _ _ _ _ h
    | exact handle_pump_start_log_mono _ _ _ _ _ h

theorem auto_P1_pressure_all (ml ug : ℚ) (s : SystemState)
    (h : ∀ b ∈ s.pressure, b = true) :
    ∀ b ∈ (auto_P1 ml ug s).pressure, b = true := by
  simp only [auto_P1]
  split_ifs
  all_goals try dsimp only
  all_goals first
    | exact h
    | (rw [handle_pump_stop_pressure]; exact h)
    | exact handle_pump_start_pressure_all _ _ _ _ h

theorem auto_P1_on_cases (ml ug : ℚ) (s : SystemState)
    (h : ((auto_P1 ml ug s).ctrl.getPump .P1).state = PumpState.ON) :
    (s.ctrl.getPump .P1).state = PumpState.ON ∨ P1_REQ_MAIN_LINE_LEVEL ≤ ml := by
  simp only [auto_P1] at h
  split_ifs at h with hg hon hstop1 hstop2 hstart hmsg
  all_goals first
    | exact Or.inl h
    | exact absurd h (handle_pump_stop_not_on _ _ _ _)
    | exact Or.inr hstart.2
    | (simp only [getPump_update_sysmsg] at h; exact Or.inl h)

set_option maxHeartbeats 1600000 in
theorem auto_P2_getPump_ne (ml ug oh : ℚ) (s : SystemState) (q : PumpId) (h : q ≠ PumpId.P2) :
    (auto_P2 ml ug oh s).ctrl.getPump q = s.ctrl.getPump q := by
  cases q with
  | P2 => exact absurd rfl h
  | P1 =>
      have hs1 : ∀ r a st, (handle_pump_stop PumpId.P2 r a st).ctrl.p1 = st.ctrl.p1 :=
        fun r a st => handle_pump_stop_p1 _ _ _ _ (by decide)
      have hs2 : ∀ r m st, ((handle_pump_start PumpId.P2 r m st).1).ctrl.p1 = st.ctrl.p1 :=
        fun r m st => handle_pump_start_p1 _ _ _ _ (by decide)
      simp only [auto_P2]
      split_ifs
      all_goals simp only [AutomationController.getPump, hs1, hs2]
  | P3 =>
      have hs1 : ∀ r a st, (handle_pump_stop PumpId.P2 r a st).ctrl.p3 = st.ctrl.p3 :=
        fun r a st => handle_pump_stop_p3 _ _ _ _ (by decide)
      have hs2 : ∀ r m st, ((handle_pump_start PumpId.P2 r m st).1).ctrl.p3 = st.ctrl.p3 :=
        fun r m st => handle_pump_start_p3 _ _ _ _ (by decide)
      simp only [auto_P2]
      split_ifs
      all_goals simp only [AutomationController.getPump, hs1, hs2]

theorem auto_P2_of_guard (ml ug oh : ℚ) (s : SystemState)
    (hg : (s.ctrl.getPump .P2).state = PumpState.ERROR ∨
      (s.ctrl.getPump .P2).state = PumpState.MANUAL_ON) : auto_P2 ml ug oh s = s := by
  simp only [auto_P2]
  rw [if_neg]
  rcases hg with hg | hg <;> simp [hg]

theorem auto_P2_err (ml ug oh : ℚ) (s : SystemState) (q : PumpId)
    (herr : (s.ctrl.getPump q).state = PumpState.ERROR) :
    ((auto_P2 ml ug oh s).ctrl.getPump q).state = PumpState.ERROR := by
  by_cases hq : q = PumpId.P2
  · subst hq
    rw [auto_P2_of_guard _ _ _ _ (Or.inl herr)]
    exact herr
  · rw [auto_P2_getPump_ne _ _ _ _ _ hq]
    exact herr

theorem auto_P2_critical (ml ug oh : ℚ) (s : SystemState)
    (hoff : (s.ctrl.getPump .P2).state = PumpState.OFF)
    (hml : ml < P2_START_THRESHOLD_MAIN_LINE)
    (hug : ug < P2_START_THRESHOLD_UNDERGROUND)
    (hoh : oh < P2_START_THRESHOLD_OVERHEAD)
    (hp : ∀ b ∈ s.pressure, b = true) :
    ((auto_P2 ml ug oh s).ctrl.getPump .P2).state = PumpState.ON ∧
    ({ pump_id := PumpId.P2, action := "START",
       reason := "Critical low levels detected in all tanks" } : LogEntry) ∈ (auto_P2 ml ug oh s).log := by
  have hnoton : (s.ctrl.getPump .P2).is_on = false := by simp [Pump.is_on, hoff]
  simp only [auto_P2]
  rw [if_pos (by simp [hoff])]
  rw [if_neg (by simp [hnoton])]
  rw [if_pos (by simp [hnoton])]
  rw [if_pos ⟨hml, hug, hoh⟩]
  exact handle_pump_start_success _ _ _ hnoton hp

theorem prepare_getPump (t : Datetime) (fv : ℚ) (s : SystemState) (q : PumpId) :
    (prepare_cycle t fv s).ctrl.getPump q = s.ctrl.getPump q := by
  cases q <;> (simp only [prepare_cycle, check_time_constraints]; split_ifs <;> rfl)

theorem prepare_log (t : Datetime) (fv : ℚ) (s : SystemState) :
    (prepare_cycle t fv s).log = s.log := by
  simp only [prepare_cycle, check_time_constraints]
  all_goals first
    | rfl
    | (split_ifs <;> rfl)

theorem prepare_pressure (t : Datetime) (fv : ℚ) (s : SystemState) :
    (prepare_cycle t fv s).pressure = s.pressure := by
  simp only [prepare_cycle, check_time_constraints]
  all_goals first
    | rfl
    | (split_ifs <;> rfl)

theorem prepare_mo_P1 (t : Datetime) (fv : ℚ) (s : SystemState) :
    (prepare_cycle t fv s).ctrl.mo_P1 = s.ctrl.mo_P1 := by
  simp only [prepare_cycle, check_time_constraints]
  all_goals first
    | rfl
    | (split_ifs <;> rfl)

theorem prepare_mo_P2 (t : Datetime) (fv : ℚ) (s : SystemState) :
    (prepare_cycle t fv s).ctrl.mo_P2 = s.ctrl.mo_P2 := by
  simp only [prepare_cycle, check_time_constraints]
  all_goals first
    | rfl
    | (split_ifs <;> rfl)

theorem prepare_is_peak (t : Datetime) (fv : ℚ) (s : SystemState) :
    (prepare_cycle t fv s).ctrl.is_peak_hours =
      decide (PEAK_HOUR_START ≤ t.sod ∧ t.sod ≤ PEAK_HOUR_END) := by
  simp only [prepare_cycle, check_time_constraints]
  all_goals first
    | rfl
    | (split_ifs <;> rfl)

@[simp]
theorem safety_sweep_is_peak (s : SystemState) :
    (safety_sweep s).ctrl.is_peak_hours = s.ctrl.is_peak_hours := by
  simp [safety_sweep]

@[simp]
theorem safety_sweep_mo_P1 (s : SystemState) :
    (safety_sweep s).ctrl.mo_P1 = s.ctrl.mo_P1 := by
  simp [safety_sweep]

@[simp]
theorem safety_sweep_mo_P2 (s : SystemState) :
    (safety_sweep s).ctrl.mo_P2 = s.ctrl.mo_P2 := by
  simp [safety_sweep]

theorem safety_sweep_log_mono (s : SystemState) (e : LogEntry) (h : e ∈ s.log) :
    e ∈ (safety_sweep s).log :=
  sweep_pump_log_mono _ _ _ (sweep_pump_log_mono _ _ _ (sweep_pump_log_mono _ _ _ h))

theorem safety_sweep_pressure_all (s : SystemState) (h : ∀ b ∈ s.pressure, b = true) :
    ∀ b ∈ (safety_sweep s).pressure, b = true :=
  sweep_pump_pressure_all _ _ (sweep_pump_pressure_all _ _ (sweep_pump_pressure_all _ _ h))

theorem safety_sweep_err (s : SystemState) (q : PumpId)
    (h : (s.ctrl.getPump q).state = PumpState.ERROR) :
    ((safety_sweep s).ctrl.getPump q).state = PumpState.ERROR :=
  sweep_pump_err _ _ _ (sweep_pump_err _ _ _ (sweep_pump_err _ _ _ h))

theorem safety_sweep_off (s : SystemState) (q : PumpId)
    (h : (s.ctrl.getPump q).state = PumpState.OFF) :
    ((safety_sweep s).ctrl.getPump q).state = PumpState.OFF :=
  sweep_pump_off _ _ _ (sweep_pump_off _ _ _ (sweep_pump_off _ _ _ h))

theorem safety_sweep_no_new_on (s : SystemState) (pid : PumpId)
    (h : ((safety_sweep s).ctrl.getPump pid).state = PumpState.ON) :
    (s.ctrl.getPump pid).state = PumpState.ON := by
  cases pid with
  | P1 =>
      rw [safety_sweep, sweep_pump_getPump_ne PumpId.P3 PumpId.P1 _ (by decide),
        sweep_pump_getPump_ne PumpId.P2 PumpId.P1 _ (by decide)] at h
      exact sweep_pump_no_new_on _ _ h
  | P2 =>
      rw [safety_sweep, sweep_pump_getPump_ne PumpId.P3 PumpId.P2 _ (by decide)] at h
      have h2 := sweep_pump_no_new_on _ _ h
      rwa [sweep_pump_getPump_ne PumpId.P1 PumpId.P2 _ (by decide)] at h2
  | P3 =>
      rw [safety_sweep] at h
      have h2 := sweep_pump_no_new_on _ _ h
      rwa [sweep_pump_getPump_ne PumpId.P2 PumpId.P3 _ (by decide),
        sweep_pump_getPump_ne PumpId.P1 PumpId.P3 _ (by decide)] at h2

theorem safety_sweep_peak_not_on (s : SystemState) (pid : PumpId)
    (hp : s.ctrl.is_peak_hours = true) :
    ((safety_sweep s).ctrl.getPump pid).state ≠ PumpState.ON := by
  cases pid with
  | P1 =>
      rw [safety_sweep, sweep_pump_getPump_ne PumpId.P3 PumpId.P1 _ (by decide),
        sweep_pump_getPump_ne PumpId.P2 PumpId.P1 _ (by decide)]
      exact sweep_pump_peak_not_on _ _ hp
  | P2 =>
      rw [safety_sweep, sweep_pump_getPump_ne PumpId.P3 PumpId.P2 _ (by decide)]
      exact sweep_pump_peak_not_on _ _ (by simp [hp])
  | P3 =>
      rw [safety_sweep]
      exact sweep_pump_peak_not_on _ _ (by simp [hp])

theorem safety_sweep_peak_on (s : SystemState) (pid : PumpId)
    (hp : s.ctrl.is_peak_hours = true)
    (hON : (s.ctrl.getPump pid).state = PumpState.ON) :
    ((safety_sweep s).ctrl.getPump pid).state = PumpState.OFF ∧
    ({ pump_id := pid, action := "STOP", reason := "Peak hours started" } : LogEntry) ∈
      (safety_sweep s).log := by
  cases pid with
  | P1 =>
      obtain ⟨h1, h2⟩ := sweep_pump_peak_on PumpId.P1 s hp hON
      refine ⟨?_, sweep_pump_log_mono _ _ _ (sweep_pump_log_mono _ _ _ h2)⟩
      rw [safety_sweep, sweep_pump_getPump_ne PumpId.P3 PumpId.P1 _ (by decide),
        sweep_pump_getPump_ne PumpId.P2 PumpId.P1 _ (by decide)]
      exact h1
  | P2 =>
      have hON1 : ((sweep_pump PumpId.P1 s).ctrl.getPump PumpId.P2).state = PumpState.ON := by
        rwa [sweep_pump_getPump_ne PumpId.P1 PumpId.P2 _ (by decide)]
      obtain ⟨h1, h2⟩ := sweep_pump_peak_on PumpId.P2 (sweep_pump PumpId.P1 s) (by simp [hp]) hON1
      refine ⟨?_, sweep_pump_log_mono _ _ _ h2⟩
      rw [safety_sweep, sweep_pump_getPump_ne PumpId.P3 PumpId.P2 _ (by decide)]
      exact h1
  | P3 =>
      have hON2 : ((sweep_pump PumpId.P2 (sweep_pump PumpId.P1 s)).ctrl.getPump PumpId.P3).state =
          PumpState.ON := by
        rwa [sweep_pump_getPump_ne PumpId.P2 PumpId.P3 _ (by decide),
          sweep_pump_getPump_ne PumpId.P1 PumpId.P3 _ (by decide)]
      obtain ⟨h1, h2⟩ := sweep_pump_peak_on PumpId.P3 _ (by simp [hp]) hON2
      exact ⟨h1, h2⟩

theorem manual_P1_peak_off (ml : ℚ) (s : SystemState) (q : PumpId)
    (hp : s.ctrl.is_peak_hours = true)
    (hoff : (s.ctrl.getPump q).state = PumpState.OFF) :
    ((manual_override_P1 ml .P3 s).ctrl.getPump q).state = PumpState.OFF := by
  rcases manual_P1_peak_keep ml s q hp with he | ⟨hm, _⟩
  · rw [he]
    exact hoff
  · rw [hoff] at hm
    simp at hm

theorem manual_P2_peak_off (s : SystemState) (q : PumpId)
    (hp : s.ctrl.is_peak_hours = true)
    (hoff : (s.ctrl.getPump q).state = PumpState.OFF) :
    ((manual_override_P2 s).ctrl.getPump q).state = PumpState.OFF := by
  rcases manual_P2_peak_keep s q hp with he | ⟨hm, _⟩
  · rw [he]
    exact hoff
  · rw [hoff] at hm
    simp at hm

/-- C3: during any `run_control_cycle` whose time falls in the peak
window, no pump ends the cycle in the automatic `ON` state, and every
pump that entered the cycle in state `ON` ends it `OFF`, stopped with
reason "Peak hours started". -/
theorem C3_peak_hours_stop (now : Datetime) (fv : ℚ) (s : SystemState) (pid : PumpId)
    (hpeak : PEAK_HOUR_START ≤ now.sod ∧ now.sod ≤ PEAK_HOUR_END) :
    ((run_control_cycle now fv s).ctrl.getPump pid).state ≠ PumpState.ON ∧
    ((s.ctrl.getPump pid).state = PumpState.ON →
      ((run_control_cycle now fv s).ctrl.getPump pid).state = PumpState.OFF ∧
      ({ pump_id := pid, action := "STOP", reason := "Peak hours started" } : LogEntry) ∈
        (run_control_cycle now fv s).log) := by
  have hp1 : (prepare_cycle now fv s).ctrl.is_peak_hours = true := by
    rw [prepare_is_peak]
    exact decide_eq_true hpeak
  have hp2 : (safety_sweep (prepare_cycle now fv s)).ctrl.is_peak_hours = true := by
    simp [hp1]
  have hp3 : (manual_override_P1 (prepare_cycle now fv s).ctrl.last_levels.main_line .P3
      (safety_sweep (prepare_cycle now fv s))).ctrl.is_peak_hours = true := by
    simp [hp1]
  have hp4 : (manual_override_P2 (manual_override_P1
      (prepare_cycle now fv s).ctrl.last_levels.main_line .P3
      (safety_sweep (prepare_cycle now fv s)))).ctrl.is_peak_hours = true := by
    simp [hp1]
  have hres : run_control_cycle now fv s =
      manual_override_P2 (manual_override_P1
        (prepare_cycle now fv s).ctrl.last_levels.main_line .P3
        (safety_sweep (prepare_cycle now fv s))) := by
    simp only [run_control_cycle, decision_logic]
    rw [if_pos hp4]
  constructor
  · intro hON
    rw [hres] at hON
    have h3 := manual_P2_no_new_on _ _ hON
    have h2 := manual_P1_no_new_on _ _ _ h3
    exact safety_sweep_peak_not_on _ _ hp1 h2
  · intro hONpre
    have hON1 : ((prepare_cycle now fv s).ctrl.getPump pid).state = PumpState.ON := by
      rw [prepare_getPump]
      exact hONpre
    obtain ⟨hoff2, hmem2⟩ := safety_sweep_peak_on _ pid hp1 hON1
    have hoff3 := manual_P1_peak_off (prepare_cycle now fv s).ctrl.last_levels.main_line
      (safety_sweep (prepare_cycle now fv s)) pid hp2 hoff2
    have hoff4 := manual_P2_peak_off _ pid hp3 hoff3
    have hmem3 := manual_P1_log_mono (prepare_cycle now fv s).ctrl.last_levels.main_line PumpId.P3
      (safety_sweep (prepare_cycle now fv s)) _ hmem2
    have hmem4 := manual_P2_log_mono _ _ hmem3
    rw [hres]
    exact ⟨hoff4, hmem4⟩

/-- C6: whenever P1 undergoes an automatic start transition to `ON`
during a cycle (it was not `ON` before and is `ON` after), the main-line
level read after the simulation step — the value the decision was taken
on — is at least `P1_REQ_MAIN_LINE_LEVEL`. -/
theorem C6_auto_start_requires_main (now : Datetime) (fv : ℚ) (s : SystemState)
    (hpre : (s.ctrl.getPump .P1).state ≠ PumpState.ON)
    (hpost : ((run_control_cycle now fv s).ctrl.getPump .P1).state = PumpState.ON) :
    P1_REQ_MAIN_LINE_LEVEL ≤ (prepare_cycle now fv s).ctrl.last_levels.main_line := by
  have hnoON4 : ((manual_override_P2 (manual_override_P1
      (prepare_cycle now fv s).ctrl.last_levels.main_line .P3
      (safety_sweep (prepare_cycle now fv s)))).ctrl.getPump .P1).state = PumpState.ON → False := by
    intro hON
    have h3 := manual_P2_no_new_on _ _ hON
    have h2 := manual_P1_no_new_on _ _ _ h3
    have h1 := safety_sweep_no_new_on _ _ h2
    rw [prepare_getPump] at h1
    exact hpre h1
  simp only [run_control_cycle, decision_logic] at hpost
  split_ifs at hpost with hp
  · exact absurd hpost (fun h => hnoON4 h)
  · rw [auto_P2_getPump_ne _ _ _ _ PumpId.P1 (by decide)] at hpost
    rcases auto_P1_on_cases _ _ _ hpost with hON | hml
    · rw [auto_P3_getPump_ne _ _ _ PumpId.P1 (by decide)] at hON
      exact absurd hON (fun h => hnoON4 h)
    · exact hml

/-- C2 (amended): the automatic logic never moves a pump out of `ERROR`:
if a pump is `ERROR` and its manual-override flag is not set (P3 has no
flag), the whole cycle leaves it in `ERROR`; and `reset_pump_error` moves
an `ERROR` pump to `OFF` with reason "Error Reset by User" and is a no-op
on a pump not in `ERROR`.  (With the override flag still set, the cycle
may restart the pump manually — see the counterexample.) -/
theorem C2_error_requires_reset (now : Datetime) (fv : ℚ) (s : SystemState) (pid : PumpId)
    (herr : (s.ctrl.getPump pid).state = PumpState.ERROR)
    (hmo : s.ctrl.getMO pid = false) :
    ((run_control_cycle now fv s).ctrl.getPump pid).state = PumpState.ERROR ∧
    (∀ pid2 : PumpId, ∀ s2 : SystemState,
      (s2.ctrl.getPump pid2).state = PumpState.ERROR →
      ((reset_pump_error pid2 s2).ctrl.getPump pid2).state = PumpState.OFF ∧
      ({ pump_id := pid2, action := "INFO", reason := "Error Reset by User" } : LogEntry) ∈
        (reset_pump_error pid2 s2).log) ∧
    (∀ pid2 : PumpId, ∀ s2 : SystemState,
      (s2.ctrl.getPump pid2).state ≠ PumpState.ERROR → reset_pump_error pid2 s2 = s2) := by
  refine ⟨?_, ?_, ?_⟩
  · have herr1 : ((prepare_cycle now fv s).ctrl.getPump pid).state = PumpState.ERROR := by
      rw [prepare_getPump]
      exact herr
    have herr2 := safety_sweep_err _ pid herr1
    have hmo1 : pid = PumpId.P1 →
        (safety_sweep (prepare_cycle now fv s)).ctrl.mo_P1 = false := by
      intro h
      subst h
      rw [safety_sweep_mo_P1, prepare_mo_P1]
      exact hmo
    have herr3 := manual_P1_err (prepare_cycle now fv s).ctrl.last_levels.main_line _ pid herr2 hmo1
    have hmo2 : pid = PumpId.P2 →
        (manual_override_P1 (prepare_cycle now fv s).ctrl.last_levels.main_line .P3
          (safety_sweep (prepare_cycle now fv s))).ctrl.mo_P2 = false := by
      intro h
      subst h
      rw [manual_P1_mo_P2, safety_sweep_mo_P2, prepare_mo_P2]
      exact hmo
    have herr4 := manual_P2_err _ pid herr3 hmo2
    simp only [run_control_cycle, decision_logic]
    split_ifs with hp
    · exact herr4
    · exact auto_P2_err _ _ _ _ pid (auto_P1_err _ _ _ pid (auto_P3_err _ _ _ pid herr4))
  · intro pid2 s2 h2
    constructor
    · simp only [reset_pump_error]
      rw [if_pos h2]
      simp
    · simp only [reset_pump_error]
      rw [if_pos h2]
      simp [log_action]
  · intro pid2 s2 h2
    simp only [reset_pump_error]
    rw [if_neg h2]

/-- C7 (amended): in a cycle outside peak hours where, after the
simulation step, all three levels are below their critical 5% thresholds,
P1 and P2 are `OFF`, manual override is not requested for P2, and the
pressure oracle reports success, pump P2 starts (`ON`) with reason
"Critical low levels detected in all tanks". -/
theorem C7_critical_start (now : Datetime) (fv : ℚ) (s : SystemState)
    (hml : (prepare_cycle now fv s).ctrl.last_levels.main_line < P2_START_THRESHOLD_MAIN_LINE)
    (hug : (prepare_cycle now fv s).ctrl.last_levels.underground < P2_START_THRESHOLD_UNDERGROUND)
    (hoh : (prepare_cycle now fv s).ctrl.last_levels.overhead < P2_START_THRESHOLD_OVERHEAD)
    (hoffP1 : (s.ctrl.getPump .P1).state = PumpState.OFF)
    (hoffP2 : (s.ctrl.getPump .P2).state = PumpState.OFF)
    (hmo2 : s.ctrl.mo_P2 = false)
    (hpeak : ¬ (PEAK_HOUR_START ≤ now.sod ∧ now.sod ≤ PEAK_HOUR_END))
    (hpress : ∀ b ∈ s.pressure, b = true) :
    ((run_control_cycle now fv s).ctrl.getPump .P2).state = PumpState.ON ∧
    ({ pump_id := PumpId.P2, action := "START",
       reason := "Critical low levels detected in all tanks" } : LogEntry) ∈
      (run_control_cycle now fv s).log := by
  have hpk : (prepare_cycle now fv s).ctrl.is_peak_hours = false := by
    rw [prepare_is_peak]
    exact decide_eq_false hpeak
  have hpOff2 : ((prepare_cycle now fv s).ctrl.getPump .P2).state = PumpState.OFF := by
    rw [prepare_getPump]
    exact hoffP2
  have hWOff2 := safety_sweep_off (prepare_cycle now fv s) .P2 hpOff2
  have hM1Off2 : ((manual_override_P1 (prepare_cycle now fv s).ctrl.last_levels.main_line .P3
      (safety_sweep (prepare_cycle now fv s))).ctrl.getPump .P2).state = PumpState.OFF := by
    rw [manual_P1_getPump_P2]
    exact hWOff2
  have hM1mo2 : (manual_override_P1 (prepare_cycle now fv s).ctrl.last_levels.main_line .P3
      (safety_sweep (prepare_cycle now fv s))).ctrl.mo_P2 = false := by
    rw [manual_P1_mo_P2, safety_sweep_mo_P2, prepare_mo_P2]
    exact hmo2
  have hM2 : manual_override_P2 (manual_override_P1
      (prepare_cycle now fv s).ctrl.last_levels.main_line .P3
      (safety_sweep (prepare_cycle now fv s))) =
      manual_override_P1 (prepare_cycle now fv s).ctrl.last_levels.main_line .P3
        (safety_sweep (prepare_cycle now fv s)) :=
    manual_P2_of_flag_false _ hM1mo2 (by simp [hM1Off2])
  have hPpress : ∀ b ∈ (prepare_cycle now fv s).pressure, b = true := by
    rw [prepare_pressure]
    exact hpress
  have hWpress := safety_sweep_pressure_all _ hPpress
  have hM1press := manual_P1_pressure_all (prepare_cycle now fv s).ctrl.last_levels.main_line .P3
    (safety_sweep (prepare_cycle now fv s)) hWpress
  have hres : run_control_cycle now fv s =
      auto_P2 (prepare_cycle now fv s).ctrl.last_levels.main_line
        (prepare_cycle now fv s).ctrl.last_levels.underground
        (prepare_cycle now fv s).ctrl.last_levels.overhead
        (auto_P1 (prepare_cycle now fv s).ctrl.last_levels.main_line
          (prepare_cycle now fv s).ctrl.last_levels.underground
          (auto_P3 (prepare_cycle now fv s).ctrl.last_levels.underground
            (prepare_cycle now fv s).ctrl.last_levels.overhead
            (manual_override_P1 (prepare_cycle now fv s).ctrl.last_levels.main_line .P3
              (safety_sweep (prepare_cycle now fv s))))) := by
    simp only [run_control_cycle, decision_logic]
    rw [hM2]
    rw [if_neg (by simp [hpk])]
  have hA3Off2 : ((auto_P3 (prepare_cycle now fv s).ctrl.last_levels.underground
      (prepare_cycle now fv s).ctrl.last_levels.overhead
      (manual_override_P1 (prepare_cycle now fv s).ctrl.last_levels.main_line .P3
        (safety_sweep (prepare_cycle now fv s)))).ctrl.getPump .P2).state = PumpState.OFF := by
    rw [auto_P3_getPump_ne _ _ _ PumpId.P2 (by decide)]
    exact hM1Off2
  have hA3press := auto_P3_pressure_all (prepare_cycle now fv s).ctrl.last_levels.underground
    (prepare_cycle now fv s).ctrl.last_levels.overhead _ hM1press
  have hA1Off2 : ((auto_P1 (prepare_cycle now fv s).ctrl.last_levels.main_line
      (prepare_cycle now fv s).ctrl.last_levels.underground
      (auto_P3 (prepare_cycle now fv s).ctrl.last_levels.underground
        (prepare_cycle now fv s).ctrl.last_levels.overhead
        (manual_override_P1 (prepare_cycle now fv s).ctrl.last_levels.main_line .P3
          (safety_sweep (prepare_cycle now fv s))))).ctrl.getPump .P2).state = PumpState.OFF := by
    rw [auto_P1_getPump_ne _ _ _ PumpId.P2 (by decide)]
    exact hA3Off2
  have hA1press := auto_P1_pressure_all (prepare_cycle now fv s).ctrl.last_levels.main_line
    (prepare_cycle now fv s).ctrl.last_levels.underground _ hA3press
  rw [hres]
  exact auto_P2_critical _ _ _ _ hA1Off2 hml hug hoh hA1press

/-- C8 (amended): requesting manual override with `enable = True` for a
pump currently in `ERROR` is rejected: the manual_override map is left
unchanged and a warning is appended.  (A disable request is processed
normally — see the counterexample.) -/
theorem C8_enable_rejected_on_error (pid : PumpId) (s : SystemState)
    (hpid : pid = PumpId.P1 ∨ pid = PumpId.P2)
    (herr : (s.ctrl.getPump pid).state = PumpState.ERROR) :
    (request_manual_override pid true s).ctrl.mo_P1 = s.ctrl.mo_P1 ∧
    (request_manual_override pid true s).ctrl.mo_P2 = s.ctrl.mo_P2 ∧
    (request_manual_override pid true s).ctrl.warnings =
      s.ctrl.warnings ++ ["Cannot manually start " ++ pid.name ++ " while in ERROR state."] := by
  simp only [request_manual_override]
  rw [if_pos hpid, if_pos ⟨trivial, herr⟩]
  exact ⟨rfl, rfl, rfl⟩

/-- Witness input for C3: P1 running automatically at a peak-hours
instant (19:26:40). -/
def c3w_state : SystemState :=
  { ctrl := { AutomationController.init with
      p1 := { pump_id := "P1", state := PumpState.ON, error_message := none } },
    tanks := { main_line := { name := "Main Line Tank", capacity := 1000, current_volume := 300, level_pct := 30 },
               underground := { name := "Underground Tank", capacity := 5000, current_volume := 1500, level_pct := 30 },
               overhead := { name := "Overhead Tank", capacity := 2000, current_volume := 1000, level_pct := 50 } },
    pressure := [],
    log := [] }

unseal Rat.mul Rat.inv Rat.add Rat.sub in
/-- Witness for C3 at a concrete peak-hours cycle. -/
theorem C3_witness :
    (PEAK_HOUR_START ≤ (70000 : ℕ) ∧ (70000 : ℕ) ≤ PEAK_HOUR_END) ∧
    (((run_control_cycle ⟨70000, 5⟩ 1 c3w_state).ctrl.getPump .P1).state ≠ PumpState.ON ∧
      ((c3w_state.ctrl.getPump .P1).state = PumpState.ON →
        ((run_control_cycle ⟨70000, 5⟩ 1 c3w_state).ctrl.getPump .P1).state = PumpState.OFF ∧
        ({ pump_id := PumpId.P1, action := "STOP", reason := "Peak hours started" } : LogEntry) ∈
          (run_control_cycle ⟨70000, 5⟩ 1 c3w_state).log)) :=
  ⟨by decide, C3_peak_hours_stop ⟨70000, 5⟩ 1 c3w_state .P1 (by decide)⟩

/-- Witness input for C6: all pumps off, underground low (5%), main line
at 20%, non-peak, pressure OK — the cycle auto-starts P1. -/
def c6w_state : SystemState :=
  { ctrl := AutomationController.init,
    tanks := { main_line := { name := "Main Line Tank", capacity := 1000, current_volume := 200, level_pct := 20 },
               underground := { name := "Underground Tank", capacity := 5000, current_volume := 250, level_pct := 5 },
               overhead := { name := "Overhead Tank", capacity := 2000, current_volume := 1000, level_pct := 50 } },
    pressure := [true],
    log := [] }

unseal Rat.mul Rat.inv Rat.add Rat.sub in
/-- Witness for C6 at a concrete cycle in which P1 starts automatically. -/
theorem C6_witness :
    (c6w_state.ctrl.getPump .P1).state ≠ PumpState.ON ∧
    ((run_control_cycle ⟨28800, 5⟩ 1 c6w_state).ctrl.getPump .P1).state = PumpState.ON ∧
    P1_REQ_MAIN_LINE_LEVEL ≤ (prepare_cycle ⟨28800, 5⟩ 1 c6w_state).ctrl.last_levels.main_line :=
  ⟨by decide, by decide,
    C6_auto_start_requires_main ⟨28800, 5⟩ 1 c6w_state (by decide) (by decide)⟩

/-- Witness input for C2 (amended): P3 in ERROR (P3 has no manual
override flag). -/
def c2w_state : SystemState :=
  { ctrl := { AutomationController.init with
      p3 := { pump_id := "P3", state := PumpState.ERROR, error_message := some "Zero Pressure Detected" } },
    tanks := { main_line := { name := "Main Line Tank", capacity := 1000, current_volume := 200, level_pct := 20 },
               underground := { name := "Underground Tank", capacity := 5000, current_volume := 1500, level_pct := 30 },
               overhead := { name := "Overhead Tank", capacity := 2000, current_volume := 1000, level_pct := 50 } },
    pressure := [],
    log := [] }

unseal Rat.mul Rat.inv Rat.add Rat.sub in
/-- Witness for the amended C2 at a concrete ERROR state. -/
theorem C2_witness :
    (c2w_state.ctrl.getPump .P3).state = PumpState.ERROR ∧
    c2w_state.ctrl.getMO .P3 = false ∧
    (((run_control_cycle ⟨28800, 5⟩ 1 c2w_state).ctrl.getPump .P3).state = PumpState.ERROR ∧
      (∀ pid2 : PumpId, ∀ s2 : SystemState,
        (s2.ctrl.getPump pid2).state = PumpState.ERROR →
        ((reset_pump_error pid2 s2).ctrl.getPump pid2).state = PumpState.OFF ∧
        ({ pump_id := pid2, action := "INFO", reason := "Error Reset by User" } : LogEntry) ∈
          (reset_pump_error pid2 s2).log) ∧
      (∀ pid2 : PumpId, ∀ s2 : SystemState,
        (s2.ctrl.getPump pid2).state ≠ PumpState.ERROR → reset_pump_error pid2 s2 = s2)) :=
  ⟨by decide, by decide,
    C2_error_requires_reset ⟨28800, 5⟩ 1 c2w_state .P3 (by decide) (by decide)⟩

/-- Witness input for C7 (amended): the counterexample's levels but with
the P2 override flag clear. -/
def c7w_state : SystemState :=
  { ctrl := AutomationController.init,
    tanks := { main_line := { name := "Main Line Tank", capacity := 1000, current_volume := 30, level_pct := 3 },
               underground := { name := "Underground Tank", capacity := 5000, current_volume := 100, level_pct := 2 },
               overhead := { name := "Overhead Tank", capacity := 2000, current_volume := 40, level_pct := 2 } },
    pressure := [true],
    log := [] }

unseal Rat.mul Rat.inv Rat.add Rat.sub in
/-- Witness for the amended C7 at a concrete all-tanks-critical cycle. -/
theorem C7_witness :
    (prepare_cycle ⟨28800, 5⟩ 1 c7w_state).ctrl.last_levels.main_line < P2_START_THRESHOLD_MAIN_LINE ∧
    (prepare_cycle ⟨28800, 5⟩ 1 c7w_state).ctrl.last_levels.underground < P2_START_THRESHOLD_UNDERGROUND ∧
    (prepare_cycle ⟨28800, 5⟩ 1 c7w_state).ctrl.last_levels.overhead < P2_START_THRESHOLD_OVERHEAD ∧
    (c7w_state.ctrl.getPump .P1).state = PumpState.OFF ∧
    (c7w_state.ctrl.getPump .P2).state = PumpState.OFF ∧
    c7w_state.ctrl.mo_P2 = false ∧
    (¬ (PEAK_HOUR_START ≤ (28800 : ℕ) ∧ (28800 : ℕ) ≤ PEAK_HOUR_END)) ∧
    (∀ b ∈ c7w_state.pressure, b = true) ∧
    (((run_control_cycle ⟨28800, 5⟩ 1 c7w_state).ctrl.getPump .P2).state = PumpState.ON ∧
      ({ pump_id := PumpId.P2, action := "START",
         reason := "Critical low levels detected in all tanks" } : LogEntry) ∈
        (run_control_cycle ⟨28800, 5⟩ 1 c7w_state).log) :=
  ⟨by decide, by decide, by decide, by decide, by decide, by decide, by decide, by decide,
    C7_critical_start ⟨28800, 5⟩ 1 c7w_state (by decide) (by decide) (by decide) (by decide)
      (by decide) (by decide) (by decide) (by decide)⟩

unseal Rat.mul Rat.inv Rat.add Rat.sub in
/-- Witness for the amended C8 at a concrete ERROR state. -/
theorem C8_witness :
    (PumpId.P1 = PumpId.P1 ∨ PumpId.P1 = PumpId.P2) ∧
    (c8_state.ctrl.getPump .P1).state = PumpState.ERROR ∧
    ((request_manual_override .P1 true c8_state).ctrl.mo_P1 = c8_state.ctrl.mo_P1 ∧
      (request_manual_override .P1 true c8_state).ctrl.mo_P2 = c8_state.ctrl.mo_P2 ∧
      (request_manual_override .P1 true c8_state).ctrl.warnings =
        c8_state.ctrl.warnings ++
          ["Cannot manually start " ++ PumpId.P1.name ++ " while in ERROR state."]) :=
  ⟨Or.inl rfl, by decide,
    C8_enable_rejected_on_error .P1 c8_state (Or.inl rfl) (by decide)⟩
